import Mathlib

/-!
Verification development for the setUpAgent repository.

The definitions below are shallow embeddings of the Python sources under
`src/`: `tools/base.py`, `tools/fs.py`, `tools/git.py`, `tools/pyenv.py`,
`tools/shell.py`, `utils.py`, `agent/planner.py` and `agent/workflow.py`.
Pure string and path computations are translated directly; operating-system
effects (file existence, subprocess results, raised exceptions) are supplied
by explicit "world" records so that every tool body remains a pure function
with exactly the branch structure of the source.

Path strings are modelled with `/` separators (POSIX form of `pathlib`);
symlink resolution performed by `Path.resolve` is not modelled, only the
lexical elimination of `.` and `..` components.
-/

namespace SetupAgent

set_option autoImplicit false

/-- JSON-like values, the payloads carried in tool envelopes. -/
inductive Jval where
  | jnull : Jval
  | jbool : Bool → Jval
  | jint : Int → Jval
  | jstr : String → Jval
  | jarr : List Jval → Jval
  | jobj : List (String × Jval) → Jval

open Jval

/-- Lookup of a key in a JSON object body (first match, mirroring dict access). -/
def jlookup (kvs : List (String × Jval)) (k : String) : Option Jval :=
  match kvs with
  | [] => none
  | (k', v) :: rest => if k' = k then some v else jlookup rest k

/-- Uniform tool envelope of `tools/base.py::tool_response`:
`{ok, tool, data, error?}` where the `error` member is emitted only when an
error string was passed (`if error is not None`). -/
structure Envelope where
  ok : Bool
  tool : String
  data : List (String × Jval)
  error : Option String

/-- Model of `tool_response` from `src/tools/base.py`: the envelope carries
`ok`, `tool` and `data` always, and `error` exactly when one is supplied. -/
def tool_response (tool : String) (ok : Bool) (data : List (String × Jval))
    (error : Option String) : Envelope :=
  { ok := ok, tool := tool, data := data, error := error }

/-! ### String helpers shared by the path model -/

/-- A single-quote character, used when assembling PowerShell snippets. -/
def sq : String := String.singleton (Char.ofNat 39)

/-- Python whitespace class `\s` restricted to ASCII. -/
def isWs (c : Char) : Bool :=
  c = ' ' || c = '\t' || c = '\n' || c = '\r' || c = Char.ofNat 11 || c = Char.ofNat 12

/-- Python `str.strip()` (ASCII whitespace). -/
def pyStrip (s : String) : String :=
  String.mk ((s.toList.dropWhile isWs).reverse.dropWhile isWs |>.reverse)

/-- Python `str.rstrip("/")`: drop all trailing slash characters. -/
def rstripSlash (s : String) : String :=
  String.mk ((s.toList.reverse.dropWhile (· = '/')).reverse)

/-- Python `str.lstrip("\\/")`: drop all leading slash and backslash characters. -/
def lstripSlashes (s : String) : String :=
  String.mk (s.toList.dropWhile (fun c => c = '/' || c = '\\'))

/-- Drop everything up to and including the first occurrence of `c`
(`s.split(c, 1)[1]` when `c` occurs in `s`). -/
def afterFirst (c : Char) (s : String) : String :=
  String.mk (((s.toList).dropWhile (· ≠ c)).drop 1)

/-- Prefix test on character lists. -/
def listStarts : List Char → List Char → Bool
  | [], _ => true
  | _ :: _, [] => false
  | p :: ps, c :: cs => p = c && listStarts ps cs

/-- Python `str.startswith` (structural implementation, so that concrete
instances reduce inside the kernel). -/
def strStarts (s pre : String) : Bool := listStarts pre.toList s.toList

/-- Python `str.endswith`. -/
def strEnds (s suf : String) : Bool :=
  listStarts suf.toList.reverse s.toList.reverse

/-- Python `str.lower` (ASCII). -/
def lowerStr (s : String) : String := String.mk (s.toList.map Char.toLower)

/-- Drop the first `n` characters. -/
def strDrop (s : String) (n : Nat) : String := String.mk (s.toList.drop n)

/-- Drop the last `n` characters. -/
def strDropRight (s : String) (n : Nat) : String :=
  String.mk (s.toList.take (s.toList.length - n))

/-- Character membership. -/
def strContainsChar (s : String) (c : Char) : Bool := s.toList.contains c

/-- Parse an optionally signed run of digits (the integer recogniser used
for exit codes). -/
def parseIntChars : List Char → Option Int
  | [] => none
  | '-' :: ds =>
    if ds ≠ [] ∧ ds.all Char.isDigit then
      some (-(Int.ofNat (ds.foldl (fun a c => a * 10 + (c.toNat - 48)) 0)))
    else none
  | '+' :: ds =>
    if ds ≠ [] ∧ ds.all Char.isDigit then
      some (Int.ofNat (ds.foldl (fun a c => a * 10 + (c.toNat - 48)) 0))
    else none
  | ds =>
    if ds.all Char.isDigit then
      some (Int.ofNat (ds.foldl (fun a c => a * 10 + (c.toNat - 48)) 0))
    else none

/-- Split a character list at a separator character. -/
def splitCharAux (sep : Char) : List Char → List Char → List (List Char)
  | [], acc => [acc.reverse]
  | c :: cs, acc =>
    if c = sep then acc.reverse :: splitCharAux sep cs []
    else splitCharAux sep cs (c :: acc)

/-- Path components of a string: split on `/`, dropping empty segments
(the component view used by `pathlib` paths). -/
def splitComps (s : String) : List String :=
  ((splitCharAux '/' s.toList []).map String.mk).filter (· ≠ "")

/-- Python `str.split(sep)` for a one-character separator. -/
def strSplitOnChar (c : Char) (s : String) : List String :=
  (splitCharAux c s.toList []).map String.mk

/-- Lexical elimination of `.` and `..` components as performed by
`Path.resolve`: `.` disappears, `..` removes the preceding component and is
dropped silently at the root. -/
def normComps (cs : List String) : List String :=
  (cs.foldl
    (fun acc c =>
      if c = "." then acc
      else if c = ".." then acc.drop 1
      else c :: acc)
    []).reverse

/-- Render an absolute path from its components. -/
def renderAbs : List String → String
  | [] => "/"
  | [c] => "/" ++ c
  | c :: rest => "/" ++ c ++ renderAbs rest

/-- Python `PurePosixPath.is_absolute`. -/
def isAbsPath (s : String) : Bool := strStarts s "/"

/-- Normalised form of an absolute path string (`str(Path(s).resolve())`
for an absolute `s`, lexically). -/
def normAbs (s : String) : String := renderAbs (normComps (splitComps s))

/-- Python `str(Path(rr) / x)`: joining with an absolute right operand
replaces the left one; an empty right operand is ignored. -/
def pathJoin (rr x : String) : String :=
  if x = "" then rr
  else if isAbsPath x then x
  else rr ++ "/" ++ x

/-- Boolean prefix test on component lists (`Path.relative_to` succeeds
exactly when the root components are a prefix of the path components). -/
def listIsPref : List String → List String → Bool
  | [], _ => true
  | _ :: _, [] => false
  | a :: as_, b :: bs => a = b && listIsPref as_ bs

/-- A well-formed workspace root: absolute, already normalised, and in
canonical rendered form. `Path(os.environ["REPO_ROOT"]).resolve()` always
satisfies this. -/
def goodRoot (root : String) : Prop :=
  isAbsPath root = true ∧
  normComps (splitComps root) = splitComps root ∧
  renderAbs (splitComps root) = root

instance (root : String) : Decidable (goodRoot root) := by
  unfold goodRoot; infer_instance

/-- The path lies at or strictly beneath the root (component-prefix test). -/
def underRoot (root p : String) : Bool :=
  listIsPref (splitComps root) (splitComps p)

/-- Result of a resolve-and-guard: the resolved absolute path or a
violation string. -/
inductive Gres where
  | ok : String → Gres
  | err : String → Gres
deriving DecidableEq, Repr

/-! ### Placeholder expansion (`src/utils.py::_expand_repo_placeholders`) -/

/-- Model of `_expand_repo_placeholders(s, rr)` from `src/utils.py`, on
already-stripped arguments. Placeholders `repo_root/...`, `$env:REPO_ROOT...`
and `%REPO_ROOT%...` expand to the workspace root; relative paths are joined
onto it; absolute paths pass through. -/
def expandRepoPlaceholders (rr s : String) : String :=
  if rr = "" then s
  else if s = "" then rr
  else if strStarts (lowerStr s) "repo_root/" || strStarts (lowerStr s) ("repo_root" ++ "\\") then
    pathJoin rr (if strContainsChar s '/' then afterFirst '/' s else afterFirst '\\' s)
  else if strStarts s ("$env:REPO_ROOT" ++ "\\") then pathJoin rr (strDrop s 15)
  else if strStarts s "$env:REPO_ROOT/" then pathJoin rr (strDrop s 15)
  else if strStarts s ("%REPO_ROOT%" ++ "\\") then pathJoin rr (strDrop s 12)
  else if strStarts s "%REPO_ROOT%/" then pathJoin rr (strDrop s 12)
  else if s = "repo_root" || s = "$env:REPO_ROOT" || s = "%REPO_ROOT%" then rr
  else if !(isAbsPath s) then pathJoin rr s
  else s

/-- The expansion that `src/tools/fs.py::_resolve_and_guard` applies through
`normalize_facts({"repo_root": root, "project_root": path})["project_root"]`:
strip, treat the empty string as the root, expand placeholders against the
root, and resolve to a normalised absolute path. -/
def fsExpand (root path : String) : String :=
  let s := pyStrip path
  if s = "" then root else normAbs (expandRepoPlaceholders root s)

/-- Model of `src/tools/fs.py::_resolve_and_guard`: expand the path, resolve
it, and require the result to lie at or beneath the workspace root
(`p.relative_to(root)`), otherwise fail with `path_out_of_root`. -/
def fsResolveAndGuard (root path : String) : Gres :=
  let p := fsExpand root path
  if underRoot root p then Gres.ok p else Gres.err "path_out_of_root"

/-- Model of the plain `_resolve_and_guard` used by `src/tools/git.py` and
`src/tools/pyenv.py` (no placeholder expansion): relative paths are joined
onto the root, the resolved result must stay under the root. -/
def gitResolveAndGuard (root path : String) : Gres :=
  let p := if isAbsPath path then normAbs path else normAbs (pathJoin root path)
  if underRoot root p then Gres.ok p else Gres.err "path_out_of_root"

/-! ### Filesystem tools (`src/tools/fs.py`)

Filesystem effects are supplied by an `FsWorld`: whether the resolved path
exists, is a file or directory, the bytes-derived payloads, and whether the
`try` body raised (`bodyExc` carries the rendered `f"{type}: {e}"` string).
-/

structure FsWorld where
  bodyExc : Option String
  pExists : Bool
  pIsFile : Bool
  pIsDir : Bool
  pIsSymlink : Bool
  size : Int
  mtime : Int
  text : String
  enc : String
  trunc : Bool
  entries : List Jval
  entriesTrunc : Bool
  found : List String
  foundTrunc : Bool
  firstMatch : Option String

/-- Python `repr` of a list of strings, used for the `pattern` field of
`files_find` (`str(inc)`). -/
def pyReprStrList (xs : List String) : String :=
  "[" ++ String.intercalate ", " (xs.map (fun s => sq ++ s ++ sq)) ++ "]"

/-- Model of `FILES_EXISTS_TOOL` (`src/tools/fs.py`). -/
def FILES_EXISTS_TOOL (root path : String) (w : FsWorld) : Envelope :=
  match fsResolveAndGuard root path with
  | Gres.err viol =>
    tool_response "files_exists" false [("path", jstr path)] (some viol)
  | Gres.ok p =>
    match w.bodyExc with
    | some e => tool_response "files_exists" false [("path", jstr p)] (some e)
    | none =>
      tool_response "files_exists" true
        [("exists", jbool w.pExists), ("path", jstr p)] none

/-- Model of `FILES_STAT_TOOL` (`src/tools/fs.py`). -/
def FILES_STAT_TOOL (root path : String) (w : FsWorld) : Envelope :=
  match fsResolveAndGuard root path with
  | Gres.err viol =>
    tool_response "files_stat" false
      [("path", jstr path), ("type", jstr "missing")] (some viol)
  | Gres.ok p =>
    match w.bodyExc with
    | some e => tool_response "files_stat" false [("path", jstr p)] (some e)
    | none =>
      if !w.pExists then
        tool_response "files_stat" true
          [("path", jstr p), ("type", jstr "missing")] none
      else
        tool_response "files_stat" true
          [("path", jstr p),
           ("type", jstr (if w.pIsDir then "dir" else if w.pIsFile then "file" else "other")),
           ("size", jint w.size),
           ("mtime", jint w.mtime),
           ("is_symlink", jbool w.pIsSymlink)] none

/-- Model of `FILES_LIST_TOOL` (`src/tools/fs.py`); the directory walk with
its filters and limit is abstracted into `w.entries`/`w.entriesTrunc`. -/
def FILES_LIST_TOOL (root path : String) (filesOnly recurse : Bool)
    (patterns : List String) (limit : Int) (w : FsWorld) : Envelope :=
  match fsResolveAndGuard root path with
  | Gres.err viol =>
    tool_response "files_list" false
      [("dir", jstr path), ("entries", jarr [])] (some viol)
  | Gres.ok p =>
    if !(w.pExists && w.pIsDir) then
      tool_response "files_list" false
        [("dir", jstr p), ("entries", jarr [])] (some "not_a_directory")
    else
      match w.bodyExc with
      | some e =>
        tool_response "files_list" false
          [("dir", jstr p), ("entries", jarr [])] (some e)
      | none =>
        tool_response "files_list" true
          [("dir", jstr p), ("entries", jarr w.entries),
           ("truncated", jbool w.entriesTrunc)] none

/-- Model of `FILES_READ_TOOL` (`src/tools/fs.py`); decoding and byte-cap
truncation are abstracted into `w.text`/`w.enc`/`w.trunc`. -/
def FILES_READ_TOOL (root path : String) (mode : String) (maxBytes : Int)
    (w : FsWorld) : Envelope :=
  match fsResolveAndGuard root path with
  | Gres.err viol =>
    tool_response "files_read" false
      [("path", jstr path), ("content", jstr "")] (some viol)
  | Gres.ok p =>
    match w.bodyExc with
    | some e =>
      tool_response "files_read" false
        [("path", jstr p), ("content", jstr "")] (some e)
    | none =>
      if !(w.pExists && w.pIsFile) then
        tool_response "files_read" false
          [("path", jstr p), ("content", jstr "")] (some "not_a_file")
      else
        tool_response "files_read" true
          [("path", jstr p), ("content", jstr w.text), ("encoding", jstr w.enc),
           ("size", jint (Int.ofNat w.text.length)), ("truncated", jbool w.trunc)] none

/-- Model of `FILES_FIND_TOOL` (`src/tools/fs.py`); the walk is abstracted
into `w.firstMatch`/`w.found`/`w.foundTrunc`. -/
def FILES_FIND_TOOL (root startDir : String) (includeGlobs excludeGlobs : List String)
    (firstOnly : Bool) (limit : Int) (w : FsWorld) : Envelope :=
  match fsResolveAndGuard root startDir with
  | Gres.err viol =>
    tool_response "files_find" false
      [("start_dir", jstr startDir), ("matches", jarr [])] (some viol)
  | Gres.ok p =>
    if !(w.pExists && w.pIsDir) then
      tool_response "files_find" false
        [("start_dir", jstr p), ("matches", jarr [])] (some "not_a_directory")
    else
      match w.bodyExc with
      | some e =>
        tool_response "files_find" false
          [("start_dir", jstr p), ("matches", jarr [])] (some e)
      | none =>
        match w.firstMatch with
        | some fp =>
          if firstOnly then
            tool_response "files_find" true
              [("start_dir", jstr p), ("matches", jarr [jstr fp]),
               ("pattern", jstr (pyReprStrList includeGlobs)),
               ("truncated", jbool false)] none
          else
            tool_response "files_find" true
              [("start_dir", jstr p), ("matches", jarr (w.found.map jstr)),
               ("pattern", jstr (pyReprStrList includeGlobs)),
               ("truncated", jbool w.foundTrunc)] none
        | none =>
          tool_response "files_find" true
            [("start_dir", jstr p), ("matches", jarr (w.found.map jstr)),
             ("pattern", jstr (pyReprStrList includeGlobs)),
             ("truncated", jbool w.foundTrunc)] none

/-- Model of `FILES_READ_SECTION_TOOL` (`src/tools/fs.py`): 1-based
inclusive line range with a character budget; the streamed decode is
abstracted into `w.text`/`w.enc`/`w.trunc`. -/
def FILES_READ_SECTION_TOOL (root path : String) (startLine endLine : Int)
    (maxChars : Int) (w : FsWorld) : Envelope :=
  match fsResolveAndGuard root path with
  | Gres.err viol =>
    tool_response "files_read_section" false
      [("path", jstr path), ("content", jstr "")] (some viol)
  | Gres.ok p =>
    match w.bodyExc with
    | some e =>
      tool_response "files_read_section" false
        [("path", jstr p), ("content", jstr "")] (some e)
    | none =>
      if !(w.pExists && w.pIsFile) then
        tool_response "files_read_section" false
          [("path", jstr p), ("content", jstr "")] (some "not_a_file")
      else
        let s := if startLine < 1 then 1 else startLine
        let e := if endLine ≥ s then endLine else s - 1
        if e < s then
          tool_response "files_read_section" true
            [("path", jstr p), ("start_line", jint s), ("end_line", jint e),
             ("content", jstr ""), ("encoding", jstr "utf-8"),
             ("size", jint 0), ("truncated", jbool false)] none
        else
          tool_response "files_read_section" true
            [("path", jstr p), ("start_line", jint s), ("end_line", jint e),
             ("content", jstr w.text), ("encoding", jstr w.enc),
             ("size", jint (Int.ofNat w.text.length)),
             ("truncated", jbool w.trunc)] none

/-- Model of `FILES_READ_RANGE_TOOL` (`src/tools/fs.py`): byte range
`[offset, offset+length)`; the read and decode are abstracted into
`w.text`/`w.enc`/`w.trunc`, the file size into `w.size`. -/
def FILES_READ_RANGE_TOOL (root path : String) (offset length : Int)
    (w : FsWorld) : Envelope :=
  match fsResolveAndGuard root path with
  | Gres.err viol =>
    tool_response "files_read_range" false
      [("path", jstr path), ("content", jstr "")] (some viol)
  | Gres.ok p =>
    match w.bodyExc with
    | some e =>
      tool_response "files_read_range" false
        [("path", jstr p), ("content", jstr "")] (some e)
    | none =>
      if !(w.pExists && w.pIsFile) then
        tool_response "files_read_range" false
          [("path", jstr p), ("content", jstr "")] (some "not_a_file")
      else
        let off := if offset < 0 then 0 else offset
        let ln := if length < 0 then 0 else length
        if ln = 0 || off ≥ w.size then
          tool_response "files_read_range" true
            [("path", jstr p), ("offset", jint off), ("length", jint ln),
             ("content", jstr ""), ("encoding", jstr "utf-8"),
             ("size", jint 0), ("truncated", jbool false)] none
        else
          tool_response "files_read_range" true
            [("path", jstr p), ("offset", jint off), ("length", jint ln),
             ("content", jstr w.text), ("encoding", jstr w.enc),
             ("size", jint (Int.ofNat w.text.length)),
             ("truncated", jbool w.trunc)] none

/-- Model of `FILES_GREP_TOOL` (`src/tools/fs.py`); the walk and regex
matching are abstracted into `w.entries`/`w.foundTrunc` (an invalid regex
raising in `re.compile` is covered by `w.bodyExc`). -/
def FILES_GREP_TOOL (root startDir : String) (patterns : List String)
    (firstOnly : Bool) (includeGlobs : List String) (limit : Int)
    (w : FsWorld) : Envelope :=
  match fsResolveAndGuard root startDir with
  | Gres.err viol =>
    tool_response "files_grep" false
      [("start_dir", jstr startDir), ("matches", jarr [])] (some viol)
  | Gres.ok p =>
    if !(w.pExists && w.pIsDir) then
      tool_response "files_grep" false
        [("start_dir", jstr p), ("matches", jarr [])] (some "not_a_directory")
    else
      match w.bodyExc with
      | some e =>
        tool_response "files_grep" false
          [("start_dir", jstr p), ("matches", jarr [])] (some e)
      | none =>
        if firstOnly && w.firstMatch.isSome then
          tool_response "files_grep" true
            [("start_dir", jstr p), ("matches", jarr w.entries),
             ("truncated", jbool false),
             ("patterns", jarr (patterns.map jstr))] none
        else
          tool_response "files_grep" true
            [("start_dir", jstr p), ("matches", jarr w.entries),
             ("truncated", jbool w.foundTrunc),
             ("patterns", jarr (patterns.map jstr))] none

/-! ### Git tools (`src/tools/git.py`) -/

/-- Python `u or dflt` on strings: the default replaces the empty string. -/
def pyOrStr (u dflt : String) : String := if u = "" then dflt else u

/-- Model of `_repo_name_from_url`: strip, drop trailing slashes, take the
last `/`-segment, drop a trailing `.git` (case-insensitively), and fall back
to `"repo"` when nothing remains. -/
def repoNameFromUrl (url : String) : String :=
  let u := rstripSlash (pyStrip url)
  let u := if strContainsChar u '/' then
    match (strSplitOnChar '/' u).getLast? with
    | some seg => seg
    | none => u
  else u
  let u := if strEnds (lowerStr u) ".git" then strDropRight u 4 else u
  pyOrStr u "repo"

/-- World of operating-system effects observed by `git_ensure_cloned`. -/
structure GitWorld where
  gitAvailable : Bool
  targetExists : Bool
  isRepoNow : Bool
  origin : Option String
  branchNow : Option String
  cloneCode : Int
  cloneOut : String
  cloneErr : String
  runExc : Option String

/-- Destination resolution of `GIT_ENSURE_CLONED_TOOL`: `dest` omitted,
empty, `"."` or `"./"` (after stripping) redirects to
`work_root/<repo_name>`, as does an explicit dest that resolves to the
workspace root itself; any other dest must resolve inside the root. -/
def gitTarget (root url : String) (dest : Option String) : Gres :=
  match dest with
  | none => Gres.ok (normAbs (pathJoin root (repoNameFromUrl url)))
  | some d =>
    let ds := pyStrip d
    if ds = "" || ds = "." || ds = "./" then
      Gres.ok (normAbs (pathJoin root (repoNameFromUrl url)))
    else
      match gitResolveAndGuard root d with
      | Gres.err viol => Gres.err viol
      | Gres.ok p =>
        if p = root then Gres.ok (normAbs (pathJoin root (repoNameFromUrl url)))
        else Gres.ok p

/-- The `git clone` argument vector built by `GIT_ENSURE_CLONED_TOOL` when
the target does not exist. -/
def buildCloneArgs (url target : String) (depth : Int) (sparse : Bool)
    (branch : Option String) : List String :=
  ["git", "clone"]
    ++ (if depth > 0 then ["--depth", toString depth] else [])
    ++ (if sparse then ["--filter=blob:none"] else [])
    ++ (match branch with | some b => ["-b", b] | none => [])
    ++ [url, target]

/-- Model of `GIT_ENSURE_CLONED_TOOL` (`src/tools/git.py`). Returns the
envelope together with a flag recording whether a `git clone` subprocess was
attempted. -/
def GIT_ENSURE_CLONED_TOOL (root url : String) (dest : Option String)
    (depth : Int) (sparse : Bool) (branch : Option String) (w : GitWorld) :
    Envelope × Bool :=
  if url = "" then
    (tool_response "git_ensure_cloned" false [("url", jstr url)]
      (some "invalid_url"), false)
  else if !w.gitAvailable then
    (tool_response "git_ensure_cloned" false [("url", jstr url)]
      (some "git_not_available"), false)
  else
    let repoName := repoNameFromUrl url
    match gitTarget root url dest with
    | Gres.err viol =>
      (tool_response "git_ensure_cloned" false
        [("url", jstr url), ("dest", jstr (dest.getD ""))] (some viol), false)
    | Gres.ok target =>
      if w.targetExists then
        (tool_response "git_ensure_cloned" true
          [("existed", jbool true), ("cloned", jbool false),
           ("repo_root", jstr root), ("project_root", jstr target),
           ("project_name", jstr repoName),
           ("remote_url", jstr ((if w.isRepoNow then w.origin else none).getD url)),
           ("branch", (if w.isRepoNow then w.branchNow else none).elim jnull jstr),
           ("is_repo", jbool w.isRepoNow)] none, false)
      else
        match w.runExc with
        | some e =>
          (tool_response "git_ensure_cloned" false
            [("existed", jbool false), ("cloned", jbool false),
             ("repo_root", jstr root), ("project_root", jstr target),
             ("project_name", jstr repoName), ("remote_url", jstr url)]
            (some e), true)
        | none =>
          if w.cloneCode ≠ 0 then
            (tool_response "git_ensure_cloned" false
              [("existed", jbool false), ("cloned", jbool false),
               ("repo_root", jstr root), ("project_root", jstr target),
               ("project_name", jstr repoName), ("remote_url", jstr url),
               ("branch", jnull), ("stdout", jstr w.cloneOut),
               ("stderr", jstr w.cloneErr)] (some "git_clone_failed"), true)
          else
            (tool_response "git_ensure_cloned" true
              [("existed", jbool false), ("cloned", jbool true),
               ("repo_root", jstr root), ("project_root", jstr target),
               ("project_name", jstr repoName),
               ("remote_url", jstr (w.origin.getD url)),
               ("branch", w.branchNow.elim jnull jstr),
               ("is_repo", jbool w.isRepoNow), ("stdout", jstr w.cloneOut),
               ("stderr", jstr w.cloneErr)] none, true)

/-- Model of `GIT_REPO_STATUS_TOOL` (`src/tools/git.py`). -/
def GIT_REPO_STATUS_TOOL (root : String) (path : Option String) (w : GitWorld)
    (bodyExc : Option String) : Envelope :=
  let target := pyOrStr (path.getD "") root
  match gitResolveAndGuard root target with
  | Gres.err viol =>
    tool_response "git_repo_status" false [("path", jstr target)] (some viol)
  | Gres.ok p =>
    if !w.gitAvailable then
      tool_response "git_repo_status" false [("path", jstr p)]
        (some "git_not_available")
    else
      match bodyExc with
      | some e => tool_response "git_repo_status" false [("path", jstr p)] (some e)
      | none =>
        tool_response "git_repo_status" true
          [("path", jstr p), ("is_repo", jbool w.isRepoNow),
           ("origin_url", (if w.isRepoNow then w.origin else none).elim jnull jstr),
           ("branch", (if w.isRepoNow then w.branchNow else none).elim jnull jstr)] none

/-! ### Python-environment tools (`src/tools/pyenv.py`)

Subprocess probes (`where`, `--version`) and file probes are supplied by
worlds; the branch structure and the deterministic installer-selection
cascade are translated directly.
-/

/-- One probed interpreter or tool: path and optional version. -/
structure ProbeEntry where
  path : String
  version : Option String

/-- World for `pyenv_python_info`. -/
structure PyInfoWorld where
  candidates : List ProbeEntry
  launcherPaths : Option (List String)
  launcherErr : String

/-- Model of `PYENV_PYTHON_INFO_TOOL`: always returns `ok=true` with the
probe results; there is no failure branch in the source. -/
def PYENV_PYTHON_INFO_TOOL (w : PyInfoWorld) : Envelope :=
  let cand : List Jval := w.candidates.map (fun c =>
    jobj [("path", jstr c.path), ("version", c.version.elim jnull jstr)])
  let launcher : Jval :=
    match w.launcherPaths with
    | some ps => jobj [("paths", jarr (ps.map jstr))]
    | none => if w.launcherErr ≠ "" then jobj [("error", jstr w.launcherErr)] else jobj []
  let active := w.candidates.head?
  tool_response "pyenv_python_info" true
    [("active", active.elim jnull (fun c =>
        jobj [("path", jstr c.path), ("version", c.version.elim jnull jstr)])),
     ("candidates", jarr cand),
     ("launcher", launcher),
     ("executable", active.elim jnull (fun c => jstr c.path)),
     ("version", active.elim jnull (fun c => c.version.elim jnull jstr))] none

/-- Model of `PYENV_TOOL_VERSIONS_TOOL`: always `ok=true`; each requested
tool maps to `{exists:false}` or `{exists:true, path, version}`. -/
def PYENV_TOOL_VERSIONS_TOOL (tools : List String)
    (probe : String → Option ProbeEntry) : Envelope :=
  let result : List (String × Jval) := tools.map (fun name =>
    match probe name with
    | none => (name, jobj [("exists", jbool false)])
    | some e => (name, jobj [("exists", jbool true), ("path", jstr e.path),
        ("version", e.version.elim jnull jstr)]))
  tool_response "pyenv_tool_versions" true [("tools", jobj result)] none

/-- World for `pyenv_parse_pyproject`. -/
structure PyProjWorld where
  defaultPath : String
  pExists : Bool
  tomlOk : Bool
  tomlErr : String
  backend : Jval
  projName : Jval
  projVer : Jval
  deps : List Jval
  optDeps : Jval
  scripts : Jval
  hasPoetry : Bool
  hasPdm : Bool
  hasUv : Bool

/-- Model of `PYENV_PARSE_PYPROJECT_TOOL` (`src/tools/pyenv.py`). -/
def PYENV_PARSE_PYPROJECT_TOOL (root : String) (pyprojectPath : Option String)
    (w : PyProjWorld) : Envelope :=
  let target := pyOrStr (pyprojectPath.getD "") w.defaultPath
  match gitResolveAndGuard root target with
  | Gres.err viol =>
    tool_response "pyenv_parse_pyproject" false
      [("path", jstr target), ("exists", jbool false)] (some viol)
  | Gres.ok p =>
    if !w.pExists then
      tool_response "pyenv_parse_pyproject" true
        [("path", jstr p), ("exists", jbool false)] none
    else if !w.tomlOk then
      tool_response "pyenv_parse_pyproject" false
        [("path", jstr p), ("exists", jbool true)]
        (some (if w.tomlErr = "" then "parse_error" else w.tomlErr))
    else
      tool_response "pyenv_parse_pyproject" true
        [("path", jstr p), ("exists", jbool true),
         ("backend", w.backend), ("project_name", w.projName),
         ("project_version", w.projVer), ("dependencies", jarr w.deps),
         ("has_dependencies", jbool (decide (0 < w.deps.length))),
         ("optional_dependencies", w.optDeps), ("scripts", w.scripts),
         ("has_poetry_section", jbool w.hasPoetry),
         ("has_pdm_section", jbool w.hasPdm),
         ("has_uv_section", jbool w.hasUv)] none

/-- World for `pyenv_select_installer`: file evidence, declared tool
sections, and which installers exist on the machine. -/
structure SelWorld where
  poetryLock : Bool
  pdmLock : Bool
  uvLock : Bool
  requirements : Bool
  condaEnv : Bool
  pyprojectExists : Bool
  tomlOk : Bool
  declUv : Bool
  declPoetry : Bool
  declPdm : Bool
  backend : Jval
  pyprojDeps : Bool
  hasUv : Bool
  hasPoetry : Bool
  hasPdm : Bool
  hasPip : Bool
  hasConda : Bool
  hasPipenv : Bool

/-- The deterministic installer-selection cascade of
`PYENV_SELECT_INSTALLER_TOOL` (`src/tools/pyenv.py`), returning the chosen
installer and the accumulated reason strings. -/
def selectInstaller (w : SelWorld) : String × List String :=
  let declUv := w.pyprojectExists && w.tomlOk && w.declUv
  let declPoetry := w.pyprojectExists && w.tomlOk && w.declPoetry
  let declPdm := w.pyprojectExists && w.tomlOk && w.declPdm
  if declUv || w.uvLock then
    if w.hasUv then ("uv", ["tool.uv 或 uv.lock 存在，且本机有 uv"])
    else ("none", ["推荐 uv 但本机缺少 uv"])
  else if declPoetry || w.poetryLock then
    if w.hasPoetry then ("poetry", ["tool.poetry 或 poetry.lock 存在，且本机有 poetry"])
    else ("none", ["推荐 poetry 但本机缺少 poetry"])
  else if declPdm || w.pdmLock then
    if w.hasPdm then ("pdm", ["tool.pdm 或 pdm.lock 存在，且本机有 pdm"])
    else ("none", ["推荐 pdm 但本机缺少 pdm"])
  else if w.condaEnv && w.hasConda then
    ("conda", ["存在 environment.yml 且本机有 conda"])
  else if w.requirements then
    if w.hasUv then ("uv", ["存在 requirements，优先使用 uv"])
    else if w.hasPip then ("pip", ["存在 requirements，使用 pip"])
    else ("none", [])
  else if w.pyprojectExists && w.tomlOk && w.pyprojDeps then
    if w.hasUv then ("uv", ["pyproject 有 dependencies，且本机有 uv"])
    else if w.hasPip then ("pip", ["pyproject 有 dependencies，使用 pip"])
    else ("none", [])
  else ("none", [])

/-- Model of `PYENV_SELECT_INSTALLER_TOOL` (`src/tools/pyenv.py`). -/
def PYENV_SELECT_INSTALLER_TOOL (root : String) (projectRoot : Option String)
    (w : SelWorld) : Envelope :=
  let guarded : Gres :=
    match projectRoot with
    | some pr => if pr = "" then Gres.ok root else gitResolveAndGuard root pr
    | none => Gres.ok root
  match guarded with
  | Gres.err viol =>
    tool_response "pyenv_select_installer" false
      [("installer", jstr "none")] (some viol)
  | Gres.ok rootDir =>
    let sel := selectInstaller w
    let reasons := if sel.2 = [] then ["未找到明确证据，返回 none"] else sel.2
    tool_response "pyenv_select_installer" true
      [("installer", jstr sel.1),
       ("reason", jstr (String.intercalate "; " reasons)),
       ("evidence", jobj
         [("pyproject", jstr (rootDir ++ "/pyproject.toml")),
          ("poetry_lock", jbool w.poetryLock), ("pdm_lock", jbool w.pdmLock),
          ("uv_lock", jbool w.uvLock), ("requirements", jbool w.requirements),
          ("conda_env", jbool w.condaEnv),
          ("tool_declared", jobj [("uv", jbool (w.pyprojectExists && w.tomlOk && w.declUv)),
            ("poetry", jbool (w.pyprojectExists && w.tomlOk && w.declPoetry)),
            ("pdm", jbool (w.pyprojectExists && w.tomlOk && w.declPdm))]),
          ("build_backend", w.backend)])] none

/-! ### Persistent shell sessions and `run_instruction` (`src/tools/shell.py`)

Session tokens (`uuid4().hex` in the source) are modelled as naturals drawn
from a monotone counter, so freshness is explicit: `SessInv` states that
every stored token is below the counter, which `uuid` collisions aside is
exactly what the source guarantees. `alive` mirrors
`session._ps is not None and session._ps.returncode is None`.
-/

/-- The module-level `_sessions` map together with the token source. -/
structure ShellSessions where
  next : Nat
  alive : List (Nat × Bool)

/-- Every stored token was produced by the counter. -/
def SessInv (st : ShellSessions) : Prop := ∀ p ∈ st.alive, p.1 < st.next

/-- Create a fresh `PowerShellSession` and register it. -/
def newSession (st : ShellSessions) : Nat × ShellSessions :=
  (st.next, { next := st.next + 1, alive := (st.next, true) :: st.alive })

/-- Remove a token from the map (`del _sessions[session_token]`). -/
def removeTok (st : ShellSessions) (tok : Nat) : ShellSessions :=
  { st with alive := st.alive.filter (fun p => p.1 ≠ tok) }

/-- Mark a session dead (`close()` terminates the subprocess, after which
`returncode` is set). -/
def markDead (st : ShellSessions) (tok : Nat) : ShellSessions :=
  { st with alive := st.alive.map (fun p => if p.1 = tok then (p.1, false) else p) }

/-- Token lookup in the session map. -/
def lookupTok (st : ShellSessions) (tok : Nat) : Option Bool :=
  (st.alive.find? (fun p => p.1 = tok)).map Prod.snd

/-- World of one `PowerShellSession.run` execution: the translated and
sanitised command, the directories observed, whether the overall timeout
fired, and the command outcome otherwise. -/
structure RunWorld where
  cmd : String
  startDir : String
  endDir : String
  timesOut : Bool
  exitCode : Int
  stdoutText : String
  raiseErr : Option String

/-- Model of `PowerShellSession.run`: on timeout a synthetic
`exit_code=124` result with `timed_out=true` and the message
`"Timed out after {timeout}s"`; otherwise the command's result with stderr
merged into stdout. The returned dictionary mirrors the source literally
(the `timed_out` key is present only in the timeout branch). -/
def sessionRunResult (w : RunWorld) (repoRootEnv : String) (timeout : Nat) :
    List (String × Jval) :=
  if w.timesOut then
    [("exit_code", jint 124),
     ("stdout", jstr ("Timed out after " ++ toString timeout ++ "s")),
     ("stderr", jstr ""),
     ("command", jstr w.cmd),
     ("work_dir", jstr (if repoRootEnv ≠ "" then repoRootEnv else w.startDir)),
     ("start_dir", jstr w.startDir),
     ("end_dir", jstr w.startDir),
     ("timed_out", jbool true)]
  else
    [("exit_code", jint w.exitCode),
     ("stdout", jstr w.stdoutText),
     ("stderr", jstr ""),
     ("command", jstr w.cmd),
     ("work_dir", jstr (if repoRootEnv ≠ "" then repoRootEnv else w.endDir)),
     ("start_dir", jstr w.startDir),
     ("end_dir", jstr w.endDir)]

/-- Session acquisition of `run_single` (`src/tools/shell.py`): no token or
an unknown token creates a fresh session; a known dead token deletes the
entry and creates a fresh session; a live token is reused. -/
def acquireSession (st : ShellSessions) (tok? : Option Nat) : Nat × ShellSessions :=
  match tok? with
  | none => newSession st
  | some t =>
    match lookupTok st t with
    | none => newSession st
    | some isAlive =>
      if isAlive then (t, st)
      else newSession (removeTok st t)

/-- Model of `run_single` (`src/tools/shell.py`): acquire or rebuild the
session for the given token, run the instruction, and on timeout tear the
session down (its entry stays in the map, marked dead, exactly as in the
source where removal happens on the next use). -/
def run_single (st : ShellSessions) (tok? : Option Nat) (w : RunWorld)
    (repoRootEnv : String) (timeout : Nat) :
    Nat × List (String × Jval) × ShellSessions :=
  let acquire := acquireSession st tok?
  let tok := acquire.1
  let st1 := acquire.2
  if w.timesOut then (tok, sessionRunResult w repoRootEnv timeout, markDead st1 tok)
  else (tok, sessionRunResult w repoRootEnv timeout, st1)

/-- Model of `RUN_INSTRUCTION_TOOL` (`src/tools/shell.py`): wraps
`run_single`; `ok` is `exit_code == 0`; an exception escaping
`run_coro_sync` yields the synthetic failure envelope with an error string.
Note that in the non-exception branch no `error` member is ever attached,
even when `ok` is false. -/
def RUN_INSTRUCTION_TOOL (st : ShellSessions) (nlInstruction : String)
    (timeout : Nat) (tok? : Option Nat) (w : RunWorld)
    (repoRootEnv : String) : Envelope × ShellSessions :=
  match w.raiseErr with
  | some e =>
    (tool_response "run_instruction" false
      [("exit_code", jint (-1)), ("stdout", jstr ""), ("stderr", jstr ""),
       ("command", jstr nlInstruction), ("work_dir", jstr ""),
       ("start_dir", jstr ""), ("end_dir", jstr ""),
       ("session_token", tok?.elim (jstr "") (fun t => jint (Int.ofNat t)))]
      (some e), st)
  | none =>
    let r := run_single st tok? w repoRootEnv timeout
    let isOk : Bool :=
      match jlookup r.2.1 "exit_code" with
      | some (jint n) => decide (n = 0)
      | some (jbool b) => !b
      | _ => false
    (tool_response "run_instruction" isOk
      (r.2.1 ++ [("session_token", jint (Int.ofNat r.1))]) none, r.2.2)

/-! ### The marker-sentinel read loop (`src/tools/shell.py::PowerShellSession._run`)

The wrapped command emits a unique line `"{marker}:{code}"`; the reader
accumulates stdout lines until it sees a line starting with the marker. The
source then sets `exit_code = 1` if the status line ends with `":1"` and `0`
in every other case.
-/

/-- Model of the read loop of `PowerShellSession._run`: returns the status
line (if the marker was seen before EOF) and the accumulated output lines. -/
def readUntilMarker (marker : String) : List String → Option String × List String
  | [] => (none, [])
  | l :: ls =>
    if strStarts l marker then (some l, [])
    else
      let r := readUntilMarker marker ls
      (r.1, l :: r.2)

/-- Exit-code extraction of `PowerShellSession._run`: `1` exactly when the
status line ends with `":1"`, otherwise `0`. -/
def runExitCode (statusLine : Option String) : Int :=
  match statusLine with
  | some sl => if strEnds sl ":1" then 1 else 0
  | none => 0

/-- Full result of the `_run` parse: exit code and joined stdout. -/
def runParse (marker : String) (lines : List String) : Int × String :=
  let r := readUntilMarker marker lines
  (runExitCode r.1, String.intercalate "\n" r.2)

/-- The integer that the end-marker line actually carries after its final
`:` (specification-side reading of the protocol: the wrapper emits
`"{marker}:{$code}"` with the command's exit code). -/
def codeAfterColon (line : String) : Option Int :=
  match (strSplitOnChar ':' line).getLast? with
  | some seg => parseIntChars seg.toList
  | none => none

/-! ### The command sanitizer (`src/tools/shell.py::_sanitize_ps_cmd`)

Each `re.sub` of the source is a left-to-right scan for non-overlapping
matches, resuming after each match, replacements never rescanned. Every
pattern of the source is fixed, so each one is translated into a dedicated
deterministic matcher (the patterns contain no constructs that require
backtracking: every `\s+` is followed by a non-whitespace literal, and the
single lazy group `[^\n]*?` is realised by trying lengths in increasing
order).
-/

/-- Word characters for `\b` (ASCII view of Python `\w`). -/
def wordChar (c : Char) : Bool := c.isAlpha || c.isDigit || c = '_'

/-- Case-insensitive literal match: returns the consumed original characters
and the remainder. -/
def matchLitCi : List Char → List Char → Option (List Char × List Char)
  | [], cs => some ([], cs)
  | _ :: _, [] => none
  | l :: ls, c :: cs =>
    if c.toLower = l.toLower then
      (matchLitCi ls cs).map (fun r => (c :: r.1, r.2))
    else none

/-- Case-sensitive literal match. -/
def matchLitCs : List Char → List Char → Option (List Char × List Char)
  | [], cs => some ([], cs)
  | _ :: _, [] => none
  | l :: ls, c :: cs =>
    if c = l then (matchLitCs ls cs).map (fun r => (c :: r.1, r.2)) else none

/-- Maximal nonempty run of characters satisfying `p` (`X+` for a class). -/
def takeRun1 (p : Char → Bool) (cs : List Char) : Option (List Char × List Char) :=
  let run := cs.takeWhile p
  if run.isEmpty then none else some (run, cs.drop run.length)

/-- Case-sensitive substring test (Python `needle in hay`). -/
def hasSub (needle : List Char) (hay : List Char) : Bool :=
  match hay with
  | [] => needle.isEmpty
  | _ :: t => ((matchLitCs needle hay).isSome) || hasSub needle t

/-- Case-insensitive `startswith` on character lists. -/
def ciStarts (lit : List Char) (cs : List Char) : Bool := (matchLitCi lit cs).isSome

/-- Python `str.replace("'", "''")`. -/
def doubleQuotes (cs : List Char) : List Char :=
  cs.flatMap (fun c => if c = Char.ofNat 39 then [c, c] else [c])

/-- A matcher returns the replacement, the consumed original characters
(nonempty for all patterns below) and the remainder. -/
def Matcher : Type := Option Char → List Char → Option (List Char × List Char × List Char)

/-- Left-to-right non-overlapping substitution, resuming after each match,
with the previous original character tracked for `\b` tests; `fuel` bounds
the recursion (every matcher consumes at least one character, so
`fuel = length` never runs out). -/
def scanSub (m : Matcher) : Nat → Option Char → List Char → List Char
  | 0, _, cs => cs
  | _ + 1, _, [] => []
  | fuel + 1, prev, c :: rest =>
    match m prev (c :: rest) with
    | some (rep, consumed, rem) =>
      rep ++ scanSub m fuel (match consumed.getLast? with
        | some c2 => some c2
        | none => prev) rem
    | none => c :: scanSub m fuel (some c) rest

/-- Run a substitution over a string. -/
def applySub (m : Matcher) (s : String) : String :=
  String.mk (scanSub m s.toList.length none s.toList)

/-- Matcher for `pip\s+install\s+-e\s+\.` (IGNORECASE), replaced by the
fixed string `pip install -e $env:PROJECT_ROOT`. -/
def tryPip : Matcher := fun _ cs => do
  let (a1, r1) ← matchLitCi "pip".toList cs
  let (w1, r2) ← takeRun1 isWs r1
  let (a2, r3) ← matchLitCi "install".toList r2
  let (w2, r4) ← takeRun1 isWs r3
  let (a3, r5) ← matchLitCi "-e".toList r4
  let (w3, r6) ← takeRun1 isWs r5
  let (a4, r7) ← matchLitCs ".".toList r6
  some ("pip install -e $env:PROJECT_ROOT".toList,
    a1 ++ w1 ++ a2 ++ w2 ++ a3 ++ w3 ++ a4, r7)

/-- Matcher for `re.escape(repo_root.rstrip("\\/")) [\\/][^\s'\"]+` with the
functional replacement of `replace_repo_abs`: the path relative to the root
is re-expressed as `(Join-Path $env:REPO_ROOT '<rel>')`. -/
def tryRepoAbs (repoRoot : String) : Matcher := fun _ cs => do
  let safeRoot := String.mk (repoRoot.toList.reverse.dropWhile
    (fun c => c = '/' || c = '\\')).reverse
  let (a1, r1) ← matchLitCs safeRoot.toList cs
  let (sep, r2) ← match r1 with
    | c :: r2 => if c = '/' || c = '\\' then some ([c], r2) else none
    | [] => none
  let (tail, r3) ← takeRun1 (fun c => !(isWs c) && c ≠ Char.ofNat 39 && c ≠ '"') r2
  let absPath := a1 ++ sep ++ tail
  let rel := (absPath.drop repoRoot.length).dropWhile (fun c => c = '/' || c = '\\')
  some (("(Join-Path $env:REPO_ROOT " ++ sq).toList ++ doubleQuotes rel
      ++ (sq ++ ")").toList,
    absPath, r3)

/-- Matcher for
`\b(Get-Content)\s+(?!-LiteralPath)(\([^\)]+\)|[^\s]+)(\s+-Raw)?`
(IGNORECASE) with the conditional replacement of `ensure_literal`: inject
`-LiteralPath` unless the match already mentions `-LiteralPath`/`-Path` or
the argument is itself a flag. -/
def tryGetContent : Matcher := fun prev cs => do
  let boundary := match prev with
    | none => true
    | some pc => !wordChar pc
  if !boundary then none else do
  let (g1, r1) ← matchLitCi "Get-Content".toList cs
  let (w1, r2) ← takeRun1 isWs r1
  if ciStarts "-LiteralPath".toList r2 then none else do
  let parenArg : Option (List Char × List Char) := do
    match r2 with
    | '(' :: inner => do
      let (body, rp) ← takeRun1 (· ≠ ')') inner
      match rp with
      | ')' :: r3 => some ('(' :: body ++ [')'], r3)
      | _ => none
    | _ => none
  let (g2, r3) ← match parenArg with
    | some pr => some pr
    | none => takeRun1 (fun c => !(isWs c)) r2
  let rawTail : Option (List Char × List Char) := do
    let (wr, rr) ← takeRun1 isWs r3
    let (ar, rr2) ← matchLitCi "-Raw".toList rr
    some (wr ++ ar, rr2)
  let (g3, r4) := match rawTail with
    | some t => t
    | none => ([], r3)
  let g0 := g1 ++ w1 ++ g2 ++ g3
  let keep := hasSub "-LiteralPath".toList g0 || hasSub "-Path".toList g0
    || (match g2.head? with | some '-' => true | _ => false)
  if keep then some (g0, g0, r4)
  else some (g1 ++ " -LiteralPath ".toList ++ g2 ++ g3, g0, r4)

/-- Matcher for `\s+-LiteralPath\s+-LiteralPath\s+` (IGNORECASE), replaced
by the literal `" -LiteralPath "`. -/
def tryDedup : Matcher := fun _ cs => do
  let (w1, r1) ← takeRun1 isWs cs
  let (a1, r2) ← matchLitCi "-LiteralPath".toList r1
  let (w2, r3) ← takeRun1 isWs r2
  let (a2, r4) ← matchLitCi "-LiteralPath".toList r3
  let (w3, r5) ← takeRun1 isWs r4
  some (" -LiteralPath ".toList, w1 ++ a1 ++ w2 ++ a2 ++ w3, r5)

/-- Tail `\s+-LiteralPath\s+-Path\s+` of the first repair pattern. -/
def fixTailLP (cs : List Char) : Option (List Char × List Char) := do
  let (w1, r1) ← takeRun1 isWs cs
  let (a1, r2) ← matchLitCi "-LiteralPath".toList r1
  let (w2, r3) ← takeRun1 isWs r2
  let (a2, r4) ← matchLitCi "-Path".toList r3
  let (w3, r5) ← takeRun1 isWs r4
  some (w1 ++ a1 ++ w2 ++ a2 ++ w3, r5)

/-- Tail `\s+-Path\s+-LiteralPath\s+` of the second repair pattern. -/
def fixTailPL (cs : List Char) : Option (List Char × List Char) := do
  let (w1, r1) ← takeRun1 isWs cs
  let (a1, r2) ← matchLitCi "-Path".toList r1
  let (w2, r3) ← takeRun1 isWs r2
  let (a2, r4) ← matchLitCi "-LiteralPath".toList r3
  let (w3, r5) ← takeRun1 isWs r4
  some (w1 ++ a1 ++ w2 ++ a2 ++ w3, r5)

/-- Lazy `[^\n]*?` group: try increasing lengths until `tail` matches. -/
def lazyGroup (tail : List Char → Option (List Char × List Char)) :
    List Char → List Char → Option (List Char × List Char × List Char)
  | g2rev, cs =>
    match tail cs with
    | some (consumed, rest) => some (g2rev.reverse, consumed, rest)
    | none =>
      match cs with
      | [] => none
      | c :: cs' => if c = '\n' then none else lazyGroup tail (c :: g2rev) cs'

/-- Matcher for `\b(Get-Content)\b([^\n]*?)<tail>` (IGNORECASE) with
replacement `\1\2 -LiteralPath `. -/
def tryFixWith (tail : List Char → Option (List Char × List Char)) : Matcher :=
  fun prev cs => do
  let boundary := match prev with
    | none => true
    | some pc => !wordChar pc
  if !boundary then none else do
  let (g1, r1) ← matchLitCi "Get-Content".toList cs
  let boundary2 := match r1.head? with
    | none => true
    | some c => !wordChar c
  if !boundary2 then none else do
  let (g2, tcons, r2) ← lazyGroup tail [] r1
  some (g1 ++ g2 ++ " -LiteralPath ".toList, g1 ++ g2 ++ tcons, r2)

/-- Matcher for `\bgit\s+clone\s+(\S+)\s+\$env:REPO_ROOT\b` (IGNORECASE)
with the functional replacement of `_rewrite_git_clone`. -/
def tryGitClone : Matcher := fun prev cs => do
  let boundary := match prev with
    | none => true
    | some pc => !wordChar pc
  if !boundary then none else do
  let (a1, r1) ← matchLitCi "git".toList cs
  let (w1, r2) ← takeRun1 isWs r1
  let (a2, r3) ← matchLitCi "clone".toList r2
  let (w2, r4) ← takeRun1 isWs r3
  let (url, r5) ← takeRun1 (fun c => !(isWs c)) r4
  let (w3, r6) ← takeRun1 isWs r5
  let (a3, r7) ← matchLitCi "$env:REPO_ROOT".toList r6
  let boundary2 := match r7.head? with
    | none => true
    | some c => !wordChar c
  if !boundary2 then none else
  let name0 := rstripSlash (pyStrip (String.mk url))
  let name1 := if strEnds (lowerStr name0) ".git" then strDropRight name0 4 else name0
  let name2 := if strContainsChar name1 '/' then
    match (strSplitOnChar '/' name1).getLast? with
    | some seg => seg
    | none => name1
  else name1
  let name3 := String.mk (doubleQuotes name2.toList)
  some (("git clone ".toList ++ url
      ++ (" (Join-Path $env:REPO_ROOT " ++ sq ++ name3 ++ sq ++ ")").toList),
    a1 ++ w1 ++ a2 ++ w2 ++ url ++ w3 ++ a3, r7)

/-- Model of `_sanitize_ps_cmd(ps_cmd, repo_root, project_root)` from
`src/tools/shell.py`: strip; rewrite `pip install -e .` when a project root
is known; re-anchor absolute in-root paths on `$env:REPO_ROOT`; inject
`-LiteralPath` for `Get-Content`; deduplicate `-LiteralPath`; repair
`-LiteralPath -Path` combinations; normalise `git clone` targets. -/
def sanitizePsCmd (psCmd repoRoot projectRoot : String) : String :=
  let text0 := pyStrip psCmd
  if text0 = "" then psCmd
  else
    let t1 := if projectRoot ≠ "" then applySub tryPip text0 else text0
    let t2 := if repoRoot ≠ "" then applySub (tryRepoAbs repoRoot) t1 else t1
    let t3 := applySub tryGetContent t2
    let t4 := applySub tryDedup t3
    let t5 := applySub (tryFixWith fixTailLP) t4
    let t6 := applySub (tryFixWith fixTailPL) t5
    applySub tryGitClone t6

/-! ### The planner (`src/agent/planner.py::plan_with_llm`)

The loose-JSON extraction pipeline (direct parse, fenced block, brace span)
yields either a parsed value or nothing; the model starts from that outcome
(`data : Option Jval`). Step extraction and the single-step fallback are
translated directly. Accessing a non-string `title`/`instruction` raises in
the source (`.strip()` on a non-string), modelled with `Except`.
-/

/-- One task step, `{id, title, instruction}`. -/
structure TaskStep where
  id : Int
  title : String
  instruction : String
deriving DecidableEq, Repr

/-- Python `s.get(key, "")` followed by `.strip()`: absent keys give the
empty string; a present non-string raises `AttributeError`. -/
def pyGetStrip (kvs : List (String × Jval)) (k : String) : Except String String :=
  match jlookup kvs k with
  | none => Except.ok ""
  | some (jstr s) => Except.ok (pyStrip s)
  | some _ => Except.error "AttributeError"

/-- Step extraction of `plan_with_llm` (before the fallback): iterate the
`steps` list of the parsed object, skipping non-dict entries and entries
with an empty instruction, defaulting empty titles to `"步骤{idx}"`. -/
def extractSteps (data : Option Jval) : Except String (List TaskStep) :=
  match data with
  | some (jobj kvs) =>
    match jlookup kvs "steps" with
    | some (jarr raw) =>
      let rec go (idx : Int) : List Jval → Except String (List TaskStep)
        | [] => Except.ok []
        | s :: rest =>
          match s with
          | jobj skvs =>
            match pyGetStrip skvs "title", pyGetStrip skvs "instruction" with
            | Except.ok title, Except.ok instruction =>
              match go (idx + 1) rest with
              | Except.ok tail =>
                if instruction = "" then Except.ok tail
                else Except.ok
                  ({ id := idx,
                     title := if title = "" then "步骤" ++ toString idx else title,
                     instruction := instruction } :: tail)
              | Except.error e => Except.error e
            | Except.error e, _ => Except.error e
            | _, Except.error e => Except.error e
          | _ => go (idx + 1) rest
      go 1 raw
    | _ => Except.ok []
  | _ => Except.ok []

/-- Model of `plan_with_llm`'s step construction: extract steps from the
parsed LLM output, degrade to the single step
`{id:1, title:"执行任务", instruction: goal}` when extraction yields nothing,
then append the renumbered result to the completed prefix. -/
def plan_with_llm (goal : String) (completedSteps : List TaskStep)
    (data : Option Jval) : Except String (List TaskStep) := do
  let steps0 ← extractSteps data
  let steps := if steps0 = [] then
    [{ id := 1, title := "执行任务", instruction := goal }] else steps0
  let base : Int := Int.ofNat completedSteps.length
  Except.ok (completedSteps ++ steps.enum.map (fun p =>
    { id := base + Int.ofNat p.1 + 1, title := p.2.title,
      instruction := p.2.instruction }))

/-- The episode field written back by `plan_node`
(`src/agent/workflow.py` line 104): `int(state.get("episode", 1) or 1)` —
a zero episode is coerced to one, anything else is preserved. -/
def planNodeEpisode (episode : Int) : Int :=
  if episode = 0 then 1 else episode

/-! ### The observer node (`src/agent/workflow.py::observe_node`)

The model covers every field of the returned state that the routing logic
writes: step index, finished titles, repeat counts, mode, episode, the
re-plan throttle scratch `_last_replan_episode`, routing flags, session id
and the stored last result. The `facts` merge, git-clone fact
post-processing and README extraction write only `facts`/`READMEinfo`,
which feed none of the modelled fields, and are therefore not modelled.
`observe_v2`'s LLM decision arrives as an explicit `RouteDecision`.
-/

/-- The decision object produced by `observe_v2` as consumed by
`observe_node`: `route` (defaulting to `"decide"` via `.get`), an optional
suggested mode, and the tri-state `success`. -/
structure RouteDecision where
  route : Option String
  suggestedMode : Option String
  success : Option Bool

/-- Agent-state slice mutated by `observe_node`. -/
structure ObsState where
  mode : String
  episode : Int
  lastReplanEpisode : Int
  currentStepIndex : Int
  finishedTitles : List String
  repeatCounts : List (String × Int)
  sessionId : Option Jval
  lastResult : Option (List (String × Jval))
  isComplete : Bool
  failed : Bool
  replanRequested : Bool
  route : Option String

/-- Python `int(v)` on a JSON value: ints pass through, booleans coerce,
numeric strings parse, everything else raises (`none`). -/
def pyIntOf : Jval → Option Int
  | jint n => some n
  | jbool b => some (if b then 1 else 0)
  | jstr s => parseIntChars (pyStrip s).toList
  | _ => none

/-- Python truthiness of a JSON value. -/
def pyTruthy : Jval → Bool
  | jnull => false
  | jbool b => b
  | jint n => decide (n ≠ 0)
  | jstr s => decide (s ≠ "")
  | jarr xs => !xs.isEmpty
  | jobj kvs => !kvs.isEmpty

/-- The LangGraph `END` sentinel. -/
def ENDroute : String := "__end__"

/-- Bounded list indexing for a (possibly negative) Python index that has
already passed the `0 <= idx < len` test. -/
def stepAt (steps : List TaskStep) (idx : Int) : Option TaskStep :=
  steps.get? idx.toNat

/-- Counter read `int(repeat_counts.get(key, 0))`. -/
def rcGet (rc : List (String × Int)) (k : String) : Int :=
  match rc.find? (fun p => p.1 = k) with
  | some p => p.2
  | none => 0

/-- Counter write `repeat_counts[key] = v` (dict update: in place when the
key exists, appended otherwise). -/
def rcSet (rc : List (String × Int)) (k : String) (v : Int) : List (String × Int) :=
  if (rc.find? (fun p => p.1 = k)).isSome then
    rc.map (fun p => if p.1 = k then (p.1, v) else p)
  else rc ++ [(k, v)]

/-- Priority-1 block of `observe_node`: the throttled mode switch. Returns
`(new_mode, new_episode, replan_requested, next_route)`: a suggested valid
mode different from the current one is applied — episode incremented,
re-plan forced — unless the current episode equals `_last_replan_episode`,
in which case the suggestion is ignored (`mode_switch_throttled`). -/
def modeSwitchStep (s : ObsState) (d : RouteDecision) : String × Int × Bool × String :=
  let newEpisode0 := planNodeEpisode s.episode
  match d.suggestedMode with
  | some m =>
    if (m = "discover" || m = "execute") && m ≠ s.mode then
      if newEpisode0 ≠ s.lastReplanEpisode then (m, newEpisode0 + 1, true, "plan")
      else (s.mode, newEpisode0, false, "decide")
    else (s.mode, newEpisode0, false, "decide")
  | none => (s.mode, newEpisode0, false, "decide")

/-- Priority-2 block of `observe_node`: the observer's own route, consulted
only when no mode switch is pending. -/
def routePriority (replan0 : Bool) (nextRoute0 : String) (isComplete : Bool)
    (observerRoute : String) : Bool × String :=
  if replan0 then (replan0, nextRoute0)
  else if isComplete then (replan0, ENDroute)
  else if observerRoute = "plan" then (true, "plan")
  else if observerRoute = "decide" then (replan0, "decide")
  else if observerRoute = "repeat_step" then (replan0, "decide")
  else if observerRoute = "skip_step" then (replan0, "decide")
  else if observerRoute = "end" then (replan0, ENDroute)
  else (replan0, nextRoute0)

/-- Repeat-cap block of `observe_node`: count `repeat_step` suggestions per
step title and force a re-plan after more than two. Returns the updated
counters and the final `(replan_requested, next_route)`. -/
def repeatCap (rc : List (String × Int)) (key : String) (observerRoute : String)
    (routed : Bool × String) : List (String × Int) × Bool × String :=
  if observerRoute = "repeat_step" then
    let v := rcGet rc key + 1
    if v > 2 then (rcSet rc key v, true, "plan")
    else (rcSet rc key v, routed.1, routed.2)
  else (rcSet rc key 0, routed.1, routed.2)

/-- Model of `observe_node` (`src/agent/workflow.py`). `steps` are the
current task's steps, `d` the decision from `observe_v2`, `tr` the parsed
content of the most recent `ToolMessage` (`none` when there is none,
which the source represents by the falsy `{}`). -/
def observe_node (steps : List TaskStep) (s : ObsState) (d : RouteDecision)
    (tr : Option (List (String × Jval))) : ObsState :=
  let idx := s.currentStepIndex
  let inRange := 0 ≤ idx ∧ idx < Int.ofNat steps.length
  -- last_result = tool_result or state.last_result, then step_id injection
  let lr0 : Option (List (String × Jval)) :=
    match tr with
    | some l => if l.isEmpty then s.lastResult else some l
    | none => s.lastResult
  let lr : Option (List (String × Jval)) :=
    match lr0 with
    | some l =>
      if inRange then
        match stepAt steps idx with
        | some st =>
          if (jlookup l "step_id").isNone then some (l ++ [("step_id", jint st.id)])
          else some l
        | none => some l
      else some l
    | none => none
  -- finished_titles: append the current title when the raw tool_result is
  -- truthy and carries a top-level exit_code equal to 0
  let trTruthy : Bool := match tr with | some l => !l.isEmpty | none => false
  let finished : List String :=
    if trTruthy then
      let code : Option Int :=
        match tr with
        | some l =>
          (match jlookup l "exit_code" with
           | none => some (-1)
           | some v => pyIntOf v)
        | none => some (-1)
      match code with
      | some n =>
        if n = 0 then
          if inRange then
            match stepAt steps idx with
            | some st =>
              if st.title ≠ "" ∧ st.title ∉ s.finishedTitles then
                s.finishedTitles ++ [st.title]
              else s.finishedTitles
            | none => s.finishedTitles
          else s.finishedTitles
        else s.finishedTitles
      | none => s.finishedTitles
    else s.finishedTitles
  -- index advancement driven by the observer route
  let observerRoute := d.route.getD "decide"
  let nextIdx : Int :=
    if observerRoute = "repeat_step" then idx
    else if observerRoute = "skip_step" then idx + 1
    else if observerRoute = "decide" then
      let isSuccess : Bool :=
        match d.success with
        | some true => true
        | some false => false
        | none =>
          match tr with
          | some l =>
            match jlookup l "ok" with
            | some (jbool true) => true
            | _ => false
          | none => false
      if isSuccess then idx + 1 else idx
    else idx
  -- session token refresh
  let newToken : Option Jval := tr.bind (fun l => jlookup l "session_token")
  let sessionId : Option Jval :=
    match newToken with
    | some v => if pyTruthy v then some v else s.sessionId
    | none => s.sessionId
  let isComplete : Bool := observerRoute = "end"
  -- priority 1: throttled mode switch
  let switch := modeSwitchStep s d
  let newMode := switch.1
  let newEpisode := switch.2.1
  let replan0 := switch.2.2.1
  let nextRoute0 := switch.2.2.2
  -- priority 2: the observer's own route, only without a pending switch
  let routed := routePriority replan0 nextRoute0 isComplete observerRoute
  -- repeat cap: more than two repeats of the same step force a re-plan
  let key : String :=
    if inRange then
      match stepAt steps idx with
      | some st => st.title
      | none => toString idx
    else toString idx
  let repeated := repeatCap s.repeatCounts key observerRoute routed
  let replanFinal := repeated.2.1
  let routeFinal := repeated.2.2
  { mode := newMode
    episode := newEpisode
    lastReplanEpisode := if replanFinal then newEpisode else s.lastReplanEpisode
    currentStepIndex := nextIdx
    finishedTitles := finished
    repeatCounts := repeated.1
    sessionId := sessionId
    lastResult := lr
    isComplete := isComplete
    failed := false
    replanRequested := replanFinal
    route := some routeFinal }

/-! ### The registered tool set

One invocation of any tool registered in the workflow's `ToolNode`
(`src/agent/workflow.py::create_task_graph`): the five `files_*` tools, the
four `pyenv_*` tools, the two `git_*` tools and `run_instruction`, each with
its arguments and its world of operating-system effects. -/
inductive ToolInv where
  | filesExists (root path : String) (w : FsWorld)
  | filesStat (root path : String) (w : FsWorld)
  | filesList (root path : String) (filesOnly recurse : Bool)
      (patterns : List String) (limit : Int) (w : FsWorld)
  | filesRead (root path mode : String) (maxBytes : Int) (w : FsWorld)
  | filesFind (root startDir : String) (inc exc : List String)
      (firstOnly : Bool) (limit : Int) (w : FsWorld)
  | pyInfo (w : PyInfoWorld)
  | pyVersions (tools : List String) (probe : String → Option ProbeEntry)
  | pyParse (root : String) (pp : Option String) (w : PyProjWorld)
  | pySelect (root : String) (pr : Option String) (w : SelWorld)
  | gitStatus (root : String) (path : Option String) (w : GitWorld)
      (exc : Option String)
  | gitEnsure (root url : String) (dest : Option String) (depth : Int)
      (sparse : Bool) (branch : Option String) (w : GitWorld)
  | runInstr (st : ShellSessions) (nl : String) (timeout : Nat)
      (tok : Option Nat) (w : RunWorld) (env : String)

/-- Dispatch a registered tool invocation to its model and return the
envelope it produces. -/
def runTool : ToolInv → Envelope
  | ToolInv.filesExists root path w => FILES_EXISTS_TOOL root path w
  | ToolInv.filesStat root path w => FILES_STAT_TOOL root path w
  | ToolInv.filesList root path fo rec pats lim w =>
    FILES_LIST_TOOL root path fo rec pats lim w
  | ToolInv.filesRead root path mode mb w => FILES_READ_TOOL root path mode mb w
  | ToolInv.filesFind root sd inc exc fo lim w =>
    FILES_FIND_TOOL root sd inc exc fo lim w
  | ToolInv.pyInfo w => PYENV_PYTHON_INFO_TOOL w
  | ToolInv.pyVersions tools probe => PYENV_TOOL_VERSIONS_TOOL tools probe
  | ToolInv.pyParse root pp w => PYENV_PARSE_PYPROJECT_TOOL root pp w
  | ToolInv.pySelect root pr w => PYENV_SELECT_INSTALLER_TOOL root pr w
  | ToolInv.gitStatus root path w exc => GIT_REPO_STATUS_TOOL root path w exc
  | ToolInv.gitEnsure root url dest depth sparse branch w =>
    (GIT_ENSURE_CLONED_TOOL root url dest depth sparse branch w).1
  | ToolInv.runInstr st nl timeout tok w env =>
    (RUN_INSTRUCTION_TOOL st nl timeout tok w env).1

/-! ## Claim theorems -/

/-- The command used to refute sanitizer idempotence: three consecutive
`-LiteralPath` flags. -/
def c4cmd : String := "foo -LiteralPath -LiteralPath -LiteralPath bar"

/-- C4. The claim states `sanitize(sanitize(x, env), env) = sanitize(x, env)`
for every command `x`. It fails: the deduplication substitution
`\s+-LiteralPath\s+-LiteralPath\s+ → " -LiteralPath "` scans non-overlapping
matches, so a run of three `-LiteralPath` tokens loses one flag per pass —
the first pass leaves two flags, the second pass one. The code's own intent
(the `去重 -LiteralPath` deduplication comment and the spec's rule 6) is a
fully deduplicated, stable result, so this is a slip in the code. -/
theorem c4_sanitizer_not_idempotent :
    sanitizePsCmd c4cmd "/ws" "/ws/demo" = "foo -LiteralPath -LiteralPath bar" ∧
    sanitizePsCmd (sanitizePsCmd c4cmd "/ws" "/ws/demo") "/ws" "/ws/demo"
      = "foo -LiteralPath bar" ∧
    sanitizePsCmd (sanitizePsCmd c4cmd "/ws" "/ws/demo") "/ws" "/ws/demo"
      ≠ sanitizePsCmd c4cmd "/ws" "/ws/demo" := by
  refine ⟨by decide, by decide, by decide⟩

/-- The end marker of the C6 protocol run. -/
def c6marker : String := "__END_deadbeef__"

/-- C6. The claim states that the exit code returned by the session's read
loop equals the integer carried after the `:` in the end-marker line. It
fails: `_run` sets `exit_code = 1` only when the status line ends in `":1"`
and `0` otherwise, so a command whose wrapper emits `...:2` (a real failure
with `$LASTEXITCODE = 2`) is reported as exit code `0` — contradicting both
the claim and the code's own `marker:0/marker:1 标识成功或失败` intent, since
arbitrary `$LASTEXITCODE` values reach the marker. The stdout half of the
claim holds: the lines before the marker form stdout. -/
theorem c6_marker_exit_code_lost :
    runParse c6marker ["hello", c6marker ++ ":2"] = (0, "hello") ∧
    codeAfterColon (c6marker ++ ":2") = some 2 ∧
    (runParse c6marker ["hello", c6marker ++ ":2"]).1 ≠ 2 := by
  refine ⟨by decide, by decide, by decide⟩

/-- The envelope shape asserted by the spec, weakened exactly where the code
deviates: the tool name is nonempty, an error member forces `ok=false`, and
`ok=false` comes with an error member except for `run_instruction`
envelopes that report a command exit code. -/
def envelopeWellFormed (e : Envelope) : Prop :=
  e.tool ≠ "" ∧
  (e.error.isSome = true → e.ok = false) ∧
  (e.ok = false → e.error.isSome = true ∨
    (e.tool = "run_instruction" ∧ (jlookup e.data "exit_code").isSome = true))

/-- Helper: a successful envelope with no error member is well formed. -/
theorem wf_ok (t : String) (d : List (String × Jval)) (h : t ≠ "") :
    envelopeWellFormed (tool_response t true d none) :=
  ⟨h, fun hc => by simp [tool_response] at hc, fun hc => by simp [tool_response] at hc⟩

/-- Helper: a failing envelope carrying an error string is well formed. -/
theorem wf_err (t : String) (d : List (String × Jval)) (e : String) (h : t ≠ "") :
    envelopeWellFormed (tool_response t false d (some e)) :=
  ⟨h, fun _ => rfl, fun _ => Or.inl rfl⟩

/-- A concrete filesystem world for witnesses. -/
def sampleFsWorld : FsWorld :=
  { bodyExc := none, pExists := true, pIsFile := true, pIsDir := false,
    pIsSymlink := false, size := 5, mtime := 0, text := "hi", enc := "utf-8",
    trunc := false, entries := [], entriesTrunc := false, found := [],
    foundTrunc := false, firstMatch := none }

/-- The empty session table. -/
def sessions0 : ShellSessions := { next := 0, alive := [] }

/-- A shell world in which the command completes with exit code 2. -/
def runWorldExit2 : RunWorld :=
  { cmd := "cmd", startDir := "/ws", endDir := "/ws", timesOut := false,
    exitCode := 2, stdoutText := "", raiseErr := none }

/-- C2 (counterexample). The claim as stated requires the error member to be
present whenever `ok=false`; the `run_instruction` envelope for a command
that completed with a nonzero exit code has `ok=false` and no error member
(`RUN_INSTRUCTION_TOOL` passes no `error` to `tool_response` on its normal
path). -/
theorem c2_error_iff_counterexample :
    (runTool (ToolInv.runInstr sessions0 "cmd" 60 none runWorldExit2 "/ws")).ok
      = false ∧
    (runTool (ToolInv.runInstr sessions0 "cmd" 60 none runWorldExit2 "/ws")).error
      = none := by
  refine ⟨by decide, by decide⟩

/-- The result dictionary of `run_single` is the session-run result,
independently of how the session was acquired. -/
theorem run_single_result (st : ShellSessions) (tok? : Option Nat)
    (w : RunWorld) (env : String) (timeout : Nat) :
    (run_single st tok? w env timeout).2.1 = sessionRunResult w env timeout := by
  unfold run_single
  dsimp only
  split <;> rfl

/-- C2 (amended). Every envelope of every registered tool, on every input
and world: `ok` is a boolean and `data` an object by construction of
`tool_response` (mirroring the source, where every call site passes a bool
and a dict); the tool name is nonempty; an error member appears only with
`ok=false`; and `ok=false` carries an error member in every branch of every
tool except `run_instruction`'s nonzero-exit envelopes, which instead carry
the exit code in `data`. -/
theorem c2_envelope_invariant (inv : ToolInv) : envelopeWellFormed (runTool inv) := by
  cases inv with
  | filesExists root path w =>
    show envelopeWellFormed (FILES_EXISTS_TOOL root path w)
    unfold FILES_EXISTS_TOOL
    try dsimp only
    repeat' split
    all_goals first
      | exact wf_err "files_exists" _ _ (by decide)
      | exact wf_ok "files_exists" _ (by decide)
  | filesStat root path w =>
    show envelopeWellFormed (FILES_STAT_TOOL root path w)
    unfold FILES_STAT_TOOL
    try dsimp only
    repeat' split
    all_goals first
      | exact wf_err "files_stat" _ _ (by decide)
      | exact wf_ok "files_stat" _ (by decide)
  | filesList root path fo rec pats lim w =>
    show envelopeWellFormed (FILES_LIST_TOOL root path fo rec pats lim w)
    unfold FILES_LIST_TOOL
    try dsimp only
    repeat' split
    all_goals first
      | exact wf_err "files_list" _ _ (by decide)
      | exact wf_ok "files_list" _ (by decide)
  | filesRead root path mode mb w =>
    show envelopeWellFormed (FILES_READ_TOOL root path mode mb w)
    unfold FILES_READ_TOOL
    try dsimp only
    repeat' split
    all_goals first
      | exact wf_err "files_read" _ _ (by decide)
      | exact wf_ok "files_read" _ (by decide)
  | filesFind root sd inc exc fo lim w =>
    show envelopeWellFormed (FILES_FIND_TOOL root sd inc exc fo lim w)
    unfold FILES_FIND_TOOL
    try dsimp only
    repeat' split
    all_goals first
      | exact wf_err "files_find" _ _ (by decide)
      | exact wf_ok "files_find" _ (by decide)
  | pyInfo w =>
    show envelopeWellFormed (PYENV_PYTHON_INFO_TOOL w)
    exact wf_ok "pyenv_python_info" _ (by decide)
  | pyVersions tools probe =>
    show envelopeWellFormed (PYENV_TOOL_VERSIONS_TOOL tools probe)
    exact wf_ok "pyenv_tool_versions" _ (by decide)
  | pyParse root pp w =>
    show envelopeWellFormed (PYENV_PARSE_PYPROJECT_TOOL root pp w)
    unfold PYENV_PARSE_PYPROJECT_TOOL
    try dsimp only
    repeat' split
    all_goals first
      | exact wf_err "pyenv_parse_pyproject" _ _ (by decide)
      | exact wf_ok "pyenv_parse_pyproject" _ (by decide)
  | pySelect root pr w =>
    show envelopeWellFormed (PYENV_SELECT_INSTALLER_TOOL root pr w)
    unfold PYENV_SELECT_INSTALLER_TOOL
    try dsimp only
    repeat' split
    all_goals first
      | exact wf_err "pyenv_select_installer" _ _ (by decide)
      | exact wf_ok "pyenv_select_installer" _ (by decide)
  | gitStatus root path w exc =>
    show envelopeWellFormed (GIT_REPO_STATUS_TOOL root path w exc)
    unfold GIT_REPO_STATUS_TOOL
    try dsimp only
    repeat' split
    all_goals first
      | exact wf_err "git_repo_status" _ _ (by decide)
      | exact wf_ok "git_repo_status" _ (by decide)
  | gitEnsure root url dest depth sparse branch w =>
    show envelopeWellFormed (GIT_ENSURE_CLONED_TOOL root url dest depth sparse branch w).1
    unfold GIT_ENSURE_CLONED_TOOL
    try dsimp only
    repeat' split
    all_goals first
      | exact wf_err "git_ensure_cloned" _ _ (by decide)
      | exact wf_ok "git_ensure_cloned" _ (by decide)
  | runInstr st nl timeout tok w env =>
    show envelopeWellFormed (RUN_INSTRUCTION_TOOL st nl timeout tok w env).1
    unfold RUN_INSTRUCTION_TOOL
    split
    · exact wf_err "run_instruction" _ _ (by decide)
    · refine ⟨?_, ?_, ?_⟩
      · intro h
        simp [tool_response] at h
      · intro hc
        simp [tool_response] at hc
      · intro _
        refine Or.inr ⟨rfl, ?_⟩
        show (jlookup ((run_single st tok w env timeout).2.1
          ++ [("session_token", jint (Int.ofNat (run_single st tok w env timeout).1))])
          "exit_code").isSome = true
        rw [run_single_result]
        unfold sessionRunResult
        split <;> simp [jlookup]

/-- A pending mode switch forces the re-plan route through priority 2. -/
theorem routePriority_true (nr : String) (ic : Bool) (r : String) :
    routePriority true nr ic r = (true, nr) := by
  unfold routePriority
  simp

/-- The repeat cap never clears a re-plan request that is already set. -/
theorem repeatCap_keep (rc : List (String × Int)) (key r : String)
    (p : Bool × String) (h : p.1 = true) : (repeatCap rc key r p).2.1 = true := by
  unfold repeatCap
  split
  · dsimp only
    split
    · rfl
    · simpa using h
  · simpa using h

/-- The throttle scratch `_last_replan_episode` is written with the new
episode exactly when a re-plan was requested. -/
theorem observe_node_lastReplan (steps : List TaskStep) (s : ObsState)
    (d : RouteDecision) (tr : Option (List (String × Jval))) :
    (observe_node steps s d tr).lastReplanEpisode =
      if (observe_node steps s d tr).replanRequested
      then (observe_node steps s d tr).episode
      else s.lastReplanEpisode := rfl

/-- C8. A suggested switch to a valid mode different from the current one:
when the episode differs from `_last_replan_episode` the switch is applied —
the mode changes, the episode strictly increases by one, a re-plan is
requested and the throttle scratch is set to the new episode (so a second
suggestion in that episode hits the throttle); when the episode equals
`_last_replan_episode` the suggestion is ignored and both mode and episode
are unchanged. Since `observe_node` changes the mode only on this path,
every applied mode switch increments the episode by exactly one. -/
theorem c8_mode_switch_throttle (steps : List TaskStep) (s : ObsState)
    (d : RouteDecision) (tr : Option (List (String × Jval))) (m : String)
    (hm : d.suggestedMode = some m)
    (hval : m = "discover" ∨ m = "execute")
    (hne : m ≠ s.mode)
    (hep : s.episode ≠ 0) :
    (s.episode ≠ s.lastReplanEpisode →
      (observe_node steps s d tr).mode = m ∧
      (observe_node steps s d tr).episode = s.episode + 1 ∧
      (observe_node steps s d tr).lastReplanEpisode = s.episode + 1 ∧
      (observe_node steps s d tr).replanRequested = true) ∧
    (s.episode = s.lastReplanEpisode →
      (observe_node steps s d tr).mode = s.mode ∧
      (observe_node steps s d tr).episode = s.episode) := by
  have hpe : planNodeEpisode s.episode = s.episode := by
    unfold planNodeEpisode
    simp [hep]
  have hb : (m = "discover" || m = "execute") = true := by
    rcases hval with h | h <;> simp [h]
  have hsw : modeSwitchStep s d =
      (if s.episode ≠ s.lastReplanEpisode
       then (m, s.episode + 1, true, "plan")
       else (s.mode, s.episode, false, "decide")) := by
    unfold modeSwitchStep
    rw [hm, hpe]
    simp [hb, hne]
  constructor
  · intro hneq
    have hsw2 : modeSwitchStep s d = (m, s.episode + 1, true, "plan") := by
      rw [hsw, if_pos hneq]
    have hmode : (observe_node steps s d tr).mode = m := by
      show (modeSwitchStep s d).1 = m
      rw [hsw2]
    have hepi : (observe_node steps s d tr).episode = s.episode + 1 := by
      show (modeSwitchStep s d).2.1 = s.episode + 1
      rw [hsw2]
    have hreplan : (observe_node steps s d tr).replanRequested = true := by
      show (repeatCap s.repeatCounts _ _
        (routePriority (modeSwitchStep s d).2.2.1 (modeSwitchStep s d).2.2.2
          _ _)).2.1 = true
      rw [hsw2]
      rw [routePriority_true]
      exact repeatCap_keep _ _ _ _ rfl
    refine ⟨hmode, hepi, ?_, hreplan⟩
    rw [observe_node_lastReplan, hreplan, if_pos rfl, hepi]
  · intro heq
    have hsw2 : modeSwitchStep s d = (s.mode, s.episode, false, "decide") := by
      rw [hsw, if_neg (by simp [heq])]
    constructor
    · show (modeSwitchStep s d).1 = s.mode
      rw [hsw2]
    · show (modeSwitchStep s d).2.1 = s.episode
      rw [hsw2]

/-- Concrete observer state for witnesses: episode 1, no re-plan yet. -/
def c8state : ObsState :=
  { mode := "discover", episode := 1, lastReplanEpisode := 0,
    currentStepIndex := 0, finishedTitles := [], repeatCounts := [],
    sessionId := none, lastResult := none, isComplete := false,
    failed := false, replanRequested := false, route := none }

/-- A decision suggesting the switch to execute mode. -/
def c8dec : RouteDecision :=
  { route := some "decide", suggestedMode := some "execute", success := none }

/-- C8 (witness). The switch theorem applied at a concrete state: the
suggestion is applied, the episode goes from 1 to 2 and the throttle
scratch records episode 2. -/
theorem c8_mode_switch_throttle_witness :
    (observe_node [] c8state c8dec none).mode = "execute" ∧
    (observe_node [] c8state c8dec none).episode = 2 ∧
    (observe_node [] c8state c8dec none).lastReplanEpisode = 2 := by
  have h := (c8_mode_switch_throttle [] c8state c8dec none "execute" rfl
    (Or.inr rfl) (by decide) (by decide)).1 (by decide)
  exact ⟨h.1, h.2.1, h.2.2.1⟩

/-- The freshly acquired session is registered and alive. -/
theorem acquire_lookup (st : ShellSessions) (tok? : Option Nat) :
    lookupTok (acquireSession st tok?).2 (acquireSession st tok?).1 = some true := by
  unfold acquireSession
  match tok? with
  | none => simp [newSession, lookupTok]
  | some t =>
    dsimp only
    cases h : lookupTok st t with
    | none =>
      simp [newSession, lookupTok]
    | some alive =>
      cases alive with
      | true => simpa [lookupTok] using h
      | false => simp [newSession, removeTok, lookupTok]

/-- Acquisition keeps the token-freshness invariant. -/
theorem acquire_inv (st : ShellSessions) (tok? : Option Nat) (hinv : SessInv st) :
    SessInv (acquireSession st tok?).2 := by
  unfold acquireSession
  match tok? with
  | none =>
    intro p hp
    simp [newSession] at hp
    rcases hp with h | h
    · simp [h, newSession]
    · exact Nat.lt_succ_of_lt (hinv p h)
  | some t =>
    dsimp only
    cases h : lookupTok st t with
    | none =>
      intro p hp
      simp [newSession] at hp
      rcases hp with h2 | h2
      · simp [h2, newSession]
      · exact Nat.lt_succ_of_lt (hinv p h2)
    | some alive =>
      cases alive with
      | true => simpa using hinv
      | false =>
        intro p hp
        simp [newSession, removeTok] at hp
        rcases hp with h2 | h2
        · simp [h2, newSession, removeTok]
        · exact Nat.lt_succ_of_lt (hinv p h2.1)

/-- The acquired token is below the (possibly advanced) counter. -/
theorem acquire_lt (st : ShellSessions) (tok? : Option Nat) (hinv : SessInv st) :
    (acquireSession st tok?).1 < (acquireSession st tok?).2.next := by
  have h := acquire_lookup st tok?
  have h2 := acquire_inv st tok? hinv
  unfold lookupTok at h
  cases hf : (acquireSession st tok?).2.alive.find? (fun p => p.1 = (acquireSession st tok?).1) with
  | none => rw [hf] at h; simp at h
  | some p =>
    have hm := List.mem_of_find?_eq_some hf
    have hk : p.1 = (acquireSession st tok?).1 := by
      have := List.find?_some hf
      simpa using this
    rw [← hk]
    exact h2 p hm

/-- Marking a session dead does not change the counter. -/
theorem markDead_next (st : ShellSessions) (tok : Nat) :
    (markDead st tok).next = st.next := rfl

/-- Marking a session dead keeps the invariant. -/
theorem markDead_inv (st : ShellSessions) (tok : Nat) (hinv : SessInv st) :
    SessInv (markDead st tok) := by
  intro p hp
  simp only [markDead, List.mem_map] at hp
  obtain ⟨q, hq, hpq⟩ := hp
  have hlt := hinv q hq
  show p.1 < st.next
  by_cases h : q.1 = tok <;> rw [← hpq] <;> simp [h] <;> omega

/-- List form of the `markDead` readback: if a token is present, the mapped
list reads it back as dead. -/
theorem find_markDead_list (tok : Nat) (l : List (Nat × Bool))
    (h : (l.find? (fun p => p.1 = tok)).isSome = true) :
    (List.find? (fun p => p.1 = tok)
      (l.map (fun p => if p.1 = tok then (p.1, false) else p))).map Prod.snd
    = some false := by
  induction l with
  | nil => simp at h
  | cons p rest ih =>
    by_cases hp : p.1 = tok
    · simp [List.find?, hp]
    · have hmap : (if p.1 = tok then (p.1, false) else p) = p := by simp [hp]
      have hb : (decide (p.1 = tok)) = false := by simp [hp]
      simp only [List.map_cons, hmap]
      simp only [List.find?, hb] at h ⊢
      exact ih h

/-- After `markDead`, a registered token reads back dead. -/
theorem lookup_markDead (st : ShellSessions) (tok : Nat)
    (h : (lookupTok st tok).isSome = true) :
    lookupTok (markDead st tok) tok = some false := by
  unfold lookupTok at h ⊢
  unfold markDead
  apply find_markDead_list
  simpa using h

/-- Removing a token does not change the counter. -/
theorem removeTok_next (st : ShellSessions) (tok : Nat) :
    (removeTok st tok).next = st.next := rfl

/-- A call that finds its session dead rebuilds it under a fresh token. -/
theorem run_single_rebuild (st : ShellSessions) (tok : Nat) (w : RunWorld)
    (env : String) (t : Nat) (hdead : lookupTok st tok = some false) :
    (run_single st (some tok) w env t).1 = st.next := by
  unfold run_single acquireSession
  dsimp only
  rw [hdead]
  dsimp only
  split <;> rfl

/-- A path string with no placeholder syntax: already stripped, nonempty,
and not carrying any of the `repo_root` / `$env:REPO_ROOT` / `%REPO_ROOT%`
prefixes that `_expand_repo_placeholders` rewrites. Ordinary relative and
absolute paths (the subject of the C1 claim) are all plain. -/
def plainPath (s : String) : Prop :=
  pyStrip s = s ∧ s ≠ "" ∧
  strStarts (lowerStr s) "repo_root/" = false ∧
  strStarts (lowerStr s) ("repo_root" ++ "\\") = false ∧
  strStarts s ("$env:REPO_ROOT" ++ "\\") = false ∧
  strStarts s "$env:REPO_ROOT/" = false ∧
  strStarts s ("%REPO_ROOT%" ++ "\\") = false ∧
  strStarts s "%REPO_ROOT%/" = false ∧
  s ≠ "repo_root" ∧ s ≠ "$env:REPO_ROOT" ∧ s ≠ "%REPO_ROOT%"

instance (s : String) : Decidable (plainPath s) := by
  unfold plainPath; infer_instance

/-- The claim-side reading of path resolution: resolve a relative path
against the workspace root and eliminate dot components lexically. -/
def claimResolve (root s : String) : String :=
  if isAbsPath s then normAbs s else normAbs (root ++ "/" ++ s)

/-- On plain paths the guard's expansion coincides with the claim-side
join-and-normalise. -/
theorem fsExpand_plain (root s : String) (hroot : goodRoot root)
    (hp : plainPath s) : fsExpand root s = claimResolve root s := by
  obtain ⟨h1, h2, h3, h4, h5, h6, h7, h8, h9, h10, h11⟩ := hp
  have hrne : root ≠ "" := by
    intro h
    have := hroot.1
    rw [h] at this
    simp [isAbsPath, strStarts, listStarts] at this
  unfold fsExpand expandRepoPlaceholders claimResolve
  rw [h1, if_neg h2, if_neg hrne, if_neg h2]
  rw [h3, h4, h5, h6, h7, h8]
  simp only [Bool.or_self, Bool.false_eq_true, if_false]
  rw [if_neg (by simp [h9, h10, h11])]
  by_cases habs : isAbsPath s
  · simp only [habs, Bool.not_true, Bool.false_eq_true, if_false, if_true]
  · simp only [habs, Bool.not_false, if_true, Bool.false_eq_true, if_false]
    unfold pathJoin
    rw [if_neg h2, if_neg (by simp [habs])]

/-- On plain paths the fs guard succeeds exactly on paths resolving at or
beneath the root, returning the claim-side resolution. -/
theorem fsGuard_plain (root s : String) (hroot : goodRoot root)
    (hp : plainPath s) :
    fsResolveAndGuard root s =
      (if underRoot root (claimResolve root s)
       then Gres.ok (claimResolve root s)
       else Gres.err "path_out_of_root") := by
  unfold fsResolveAndGuard
  rw [fsExpand_plain root s hroot hp]

/-- Appending a plain component (neither `.` nor `..`) to a component list
commutes with normalisation. -/
theorem normComps_append_single (cs : List String) (n : String)
    (h1 : n ≠ ".") (h2 : n ≠ "..") :
    normComps (cs ++ [n]) = normComps cs ++ [n] := by
  unfold normComps
  rw [List.foldl_append]
  simp [h1, h2]

/-- Rendering strictly grows when a nonempty component is appended. -/
theorem renderAbs_length_lt (cs : List String) (n : String) (hn : n ≠ "") :
    (renderAbs cs).length < (renderAbs (cs ++ [n])).length := by
  have hdata : n.data ≠ [] := by
    intro h
    apply hn
    cases n
    simp only at h
    simp [h]
  have hnpos : 0 < n.length :=
    show 0 < n.data.length from List.length_pos.mpr hdata
  induction cs with
  | nil =>
    show ("/" : String).length < ("/" ++ n).length
    simp only [String.length_append]
    omega
  | cons c rest ih =>
    cases rest with
    | nil =>
      show ("/" ++ c).length < ("/" ++ c ++ renderAbs [n]).length
      have h1 : 0 < (renderAbs [n]).length := by
        show 0 < ("/" ++ n).length
        simp only [String.length_append]
        omega
      simp only [String.length_append]
      omega
    | cons d rest2 =>
      show ("/" ++ c ++ renderAbs (d :: rest2)).length
        < ("/" ++ c ++ renderAbs (d :: rest2 ++ [n])).length
      have h1 := ih
      simp only [String.length_append] at h1 ⊢
      omega

/-- A path extended by a nonempty component differs from the original. -/
theorem renderAbs_ne (cs : List String) (n : String) (hn : n ≠ "") :
    renderAbs (cs ++ [n]) ≠ renderAbs cs := by
  intro h
  have := renderAbs_length_lt cs n hn
  rw [h] at this
  omega

/-- The `or "repo"` fallback is never empty. -/
theorem pyOrStr_repo_ne_empty (u : String) : pyOrStr u "repo" ≠ "" := by
  unfold pyOrStr
  split
  · decide
  · assumption

/-- The repository name derived from a url is never empty. -/
theorem repoNameFromUrl_ne_empty (url : String) : repoNameFromUrl url ≠ "" := by
  unfold repoNameFromUrl
  dsimp only
  apply pyOrStr_repo_ne_empty

/-- One invocation of a registered `files_*` tool with its path argument
(the argument that `_resolve_and_guard` inspects). -/
inductive FsCall where
  | fexists (path : String)
  | fstat (path : String)
  | flist (path : String) (filesOnly recurse : Bool) (patterns : List String)
      (limit : Int)
  | fread (path mode : String) (maxBytes : Int)
  | ffind (path : String) (inc exc : List String) (firstOnly : Bool) (limit : Int)
  | fsection (path : String) (startLine endLine maxChars : Int)
  | frange (path : String) (offset length : Int)
  | fgrep (path : String) (patterns : List String) (firstOnly : Bool)
      (inc : List String) (limit : Int)

/-- The path argument of a `files_*` call. -/
def fsCallPath : FsCall → String
  | FsCall.fexists p => p
  | FsCall.fstat p => p
  | FsCall.flist p _ _ _ _ => p
  | FsCall.fread p _ _ => p
  | FsCall.ffind p _ _ _ _ => p
  | FsCall.fsection p _ _ _ => p
  | FsCall.frange p _ _ => p
  | FsCall.fgrep p _ _ _ _ => p

/-- The data key under which each `files_*` tool reports its path. -/
def fsPathKey : FsCall → String
  | FsCall.fexists _ => "path"
  | FsCall.fstat _ => "path"
  | FsCall.flist _ _ _ _ _ => "dir"
  | FsCall.fread _ _ _ => "path"
  | FsCall.ffind _ _ _ _ _ => "start_dir"
  | FsCall.fsection _ _ _ _ => "path"
  | FsCall.frange _ _ _ => "path"
  | FsCall.fgrep _ _ _ _ _ => "start_dir"

/-- Dispatch a `files_*` invocation to its model. -/
def runFsCall (root : String) (c : FsCall) (w : FsWorld) : Envelope :=
  match c with
  | FsCall.fexists p => FILES_EXISTS_TOOL root p w
  | FsCall.fstat p => FILES_STAT_TOOL root p w
  | FsCall.flist p fo rec pats lim => FILES_LIST_TOOL root p fo rec pats lim w
  | FsCall.fread p m mb => FILES_READ_TOOL root p m mb w
  | FsCall.ffind p inc exc fo lim => FILES_FIND_TOOL root p inc exc fo lim w
  | FsCall.fsection p s e mc => FILES_READ_SECTION_TOOL root p s e mc w
  | FsCall.frange p off len => FILES_READ_RANGE_TOOL root p off len w
  | FsCall.fgrep p pats fo inc lim => FILES_GREP_TOOL root p pats fo inc lim w

/-- The extra clause of the C1 claim for the content-bearing readers
(`files_read`, `files_read_section`, `files_read_range`): failure data
carries an empty content. -/
def readContentClause (c : FsCall) (e : Envelope) : Prop :=
  match c with
  | FsCall.fread _ _ _ => jlookup e.data "content" = some (jstr "")
  | FsCall.fsection _ _ _ _ => jlookup e.data "content" = some (jstr "")
  | FsCall.frange _ _ _ => jlookup e.data "content" = some (jstr "")
  | _ => True

/-- C1. For every `files_*` tool of `src/tools/fs.py` (the five registered
ones plus `files_read_section`, `files_read_range` and `files_grep`) and
every plain path argument:
if joining a relative path onto `repo_root` (an absolute path passes
unchanged) and eliminating `..`/`.` components yields a path that is neither
`repo_root` nor beneath it, the tool fails with `error="path_out_of_root"`
and data echoing the original path — for `files_read` with `content=""`;
if the path is relative and resolves in-root, the guard hands the tool
exactly `repo_root` joined with the path (normalised), so the tool operates
on that joined path. -/
theorem c1_path_guard (root : String) (c : FsCall) (w : FsWorld)
    (hroot : goodRoot root) (hp : plainPath (fsCallPath c)) :
    (underRoot root (claimResolve root (fsCallPath c)) = false →
      (runFsCall root c w).ok = false ∧
      (runFsCall root c w).error = some "path_out_of_root" ∧
      jlookup (runFsCall root c w).data (fsPathKey c)
        = some (jstr (fsCallPath c)) ∧
      readContentClause c (runFsCall root c w)) ∧
    (underRoot root (claimResolve root (fsCallPath c)) = true →
      fsResolveAndGuard root (fsCallPath c)
        = Gres.ok (claimResolve root (fsCallPath c)) ∧
      (isAbsPath (fsCallPath c) = false →
        claimResolve root (fsCallPath c)
          = normAbs (root ++ "/" ++ fsCallPath c))) := by
  have hguard := fsGuard_plain root (fsCallPath c) hroot hp
  constructor
  · intro hout
    rw [hout] at hguard
    simp only [Bool.false_eq_true, if_false] at hguard
    cases c with
    | fexists p =>
      simp only [fsCallPath] at hguard
      simp only [runFsCall, fsCallPath, fsPathKey, readContentClause]
      unfold FILES_EXISTS_TOOL
      rw [hguard]
      exact ⟨rfl, rfl, by simp [jlookup, tool_response], trivial⟩
    | fstat p =>
      simp only [fsCallPath] at hguard
      simp only [runFsCall, fsCallPath, fsPathKey, readContentClause]
      unfold FILES_STAT_TOOL
      rw [hguard]
      exact ⟨rfl, rfl, by simp [jlookup, tool_response], trivial⟩
    | flist p fo rec pats lim =>
      simp only [fsCallPath] at hguard
      simp only [runFsCall, fsCallPath, fsPathKey, readContentClause]
      unfold FILES_LIST_TOOL
      rw [hguard]
      exact ⟨rfl, rfl, by simp [jlookup, tool_response], trivial⟩
    | fread p m mb =>
      simp only [fsCallPath] at hguard
      simp only [runFsCall, fsCallPath, fsPathKey, readContentClause]
      unfold FILES_READ_TOOL
      rw [hguard]
      exact ⟨rfl, rfl, by simp [jlookup, tool_response],
        by simp [jlookup, tool_response]⟩
    | ffind p inc exc fo lim =>
      simp only [fsCallPath] at hguard
      simp only [runFsCall, fsCallPath, fsPathKey, readContentClause]
      unfold FILES_FIND_TOOL
      rw [hguard]
      exact ⟨rfl, rfl, by simp [jlookup, tool_response], trivial⟩
    | fsection p s e mc =>
      simp only [fsCallPath] at hguard
      simp only [runFsCall, fsCallPath, fsPathKey, readContentClause]
      unfold FILES_READ_SECTION_TOOL
      rw [hguard]
      exact ⟨rfl, rfl, by simp [jlookup, tool_response],
        by simp [jlookup, tool_response]⟩
    | frange p off len =>
      simp only [fsCallPath] at hguard
      simp only [runFsCall, fsCallPath, fsPathKey, readContentClause]
      unfold FILES_READ_RANGE_TOOL
      rw [hguard]
      exact ⟨rfl, rfl, by simp [jlookup, tool_response],
        by simp [jlookup, tool_response]⟩
    | fgrep p pats fo inc lim =>
      simp only [fsCallPath] at hguard
      simp only [runFsCall, fsCallPath, fsPathKey, readContentClause]
      unfold FILES_GREP_TOOL
      rw [hguard]
      exact ⟨rfl, rfl, by simp [jlookup, tool_response], trivial⟩
  · intro hin
    rw [hin] at hguard
    simp only [if_true] at hguard
    refine ⟨hguard, ?_⟩
    intro habs
    unfold claimResolve
    rw [if_neg (by simp [habs])]

/-- The out-of-root path of the spec's path-escape fixture. -/
def c1path : String := "../../etc/passwd"

/-- C1 (witness). The guard theorem applied at `repo_root=/ws` with the
escape fixture `../../etc/passwd`: the resolution leaves the root, so
`files_read` fails with `path_out_of_root` and empty content. -/
theorem c1_path_guard_witness :
    (runFsCall "/ws" (FsCall.fread c1path "raw" 262144) sampleFsWorld).ok = false ∧
    (runFsCall "/ws" (FsCall.fread c1path "raw" 262144) sampleFsWorld).error
      = some "path_out_of_root" ∧
    jlookup (runFsCall "/ws" (FsCall.fread c1path "raw" 262144)
      sampleFsWorld).data "path" = some (jstr c1path) ∧
    jlookup (runFsCall "/ws" (FsCall.fread c1path "raw" 262144)
      sampleFsWorld).data "content" = some (jstr "") := by
  have h := (c1_path_guard "/ws" (FsCall.fread c1path "raw" 262144) sampleFsWorld
    (by refine ⟨rfl, ?_, ?_⟩ <;> decide) (by decide)).1 (by decide)
  exact ⟨h.1, h.2.1, h.2.2.1, h.2.2.2⟩

/-- A git world for concrete `git_ensure_cloned` evaluations: git present,
the target directory already exists. -/
def c3gitWorld : GitWorld :=
  { gitAvailable := true, targetExists := true, isRepoNow := false,
    origin := none, branchNow := none, cloneCode := 0, cloneOut := "",
    cloneErr := "", runExc := none }

/-- C10 (counterexample). The claim asserts that the sentinel-dest redirect
means "the workspace root itself is never used as the clone destination and
its pre-existence never yields existed=true". For a url whose basename is
`"."` the redirect target `work_root/"."` resolves to the workspace root
itself, and the root's pre-existence yields `existed=true`. -/
theorem c10_dot_basename_counterexample :
    repoNameFromUrl "https://h/." = "." ∧
    gitTarget "/ws" "https://h/." (some ".") = Gres.ok "/ws" ∧
    jlookup (GIT_ENSURE_CLONED_TOOL "/ws" "https://h/." (some ".") 1 true none
      c3gitWorld).1.data "project_root" = some (jstr "/ws") ∧
    jlookup (GIT_ENSURE_CLONED_TOOL "/ws" "https://h/." (some ".") 1 true none
      c3gitWorld).1.data "existed" = some (jbool true) := by
  exact ⟨rfl, rfl, rfl, rfl⟩

/-- C10 (amended). For every `git_ensure_cloned` call whose `dest` is
omitted, empty, `"."` or `"./"` (after stripping), or resolves to the
workspace root itself, the clone target is silently redirected to
`workspace_root/<name>` with `<name> = _repo_name_from_url(url)` (the url
basename, trailing `.git` stripped, `"repo"` when empty). Provided `<name>`
is a plain component — not `"."` or `".."`, slash-free (which is what the
component hypothesis `hsplit` states) — the redirected target is a strict
child of the workspace root, never the root itself, and the `existed`
answer is taken at that child. -/
theorem c10_sentinel_dest_redirect (root url : String) (d : Option String)
    (depth : Int) (sparse : Bool) (branch : Option String) (w : GitWorld)
    (hroot : goodRoot root)
    (hurl : url ≠ "") (hgit : w.gitAvailable = true)
    (hsent : d = none ∨
      (∃ ds, d = some ds ∧
        (pyStrip ds = "" ∨ pyStrip ds = "." ∨ pyStrip ds = "./")) ∨
      (∃ ds, d = some ds ∧ pyStrip ds ≠ "" ∧ pyStrip ds ≠ "." ∧
        pyStrip ds ≠ "./" ∧ gitResolveAndGuard root ds = Gres.ok root))
    (hsplit : splitComps (pathJoin root (repoNameFromUrl url))
      = splitComps root ++ [repoNameFromUrl url])
    (hdot : repoNameFromUrl url ≠ "." ∧ repoNameFromUrl url ≠ "..") :
    gitTarget root url d
      = Gres.ok (renderAbs (splitComps root ++ [repoNameFromUrl url])) ∧
    renderAbs (splitComps root ++ [repoNameFromUrl url]) ≠ root ∧
    jlookup (GIT_ENSURE_CLONED_TOOL root url d depth sparse branch w).1.data
      "existed" = some (jbool w.targetExists) ∧
    jlookup (GIT_ENSURE_CLONED_TOOL root url d depth sparse branch w).1.data
      "project_root"
      = some (jstr (renderAbs (splitComps root ++ [repoNameFromUrl url]))) := by
  have htgtval : normAbs (pathJoin root (repoNameFromUrl url))
      = renderAbs (splitComps root ++ [repoNameFromUrl url]) := by
    unfold normAbs
    rw [hsplit, normComps_append_single _ _ hdot.1 hdot.2, hroot.2.1]
  have hne : renderAbs (splitComps root ++ [repoNameFromUrl url]) ≠ root := by
    intro h
    exact renderAbs_ne (splitComps root) (repoNameFromUrl url)
      (repoNameFromUrl_ne_empty url) (h.trans hroot.2.2.symm)
  have htgt : gitTarget root url d
      = Gres.ok (renderAbs (splitComps root ++ [repoNameFromUrl url])) := by
    unfold gitTarget
    rcases hsent with h | ⟨ds, hds, hsv⟩ | ⟨ds, hds, h1, h2, h3, hok⟩
    · rw [h]
      rw [htgtval]
    · rw [hds]
      dsimp only
      have hcond : (pyStrip ds = "" || pyStrip ds = "." || pyStrip ds = "./") = true := by
        rcases hsv with h | h | h <;> simp [h]
      rw [if_pos hcond, htgtval]
    · rw [hds]
      dsimp only
      rw [if_neg (by simp [h1, h2, h3])]
      rw [hok]
      dsimp only
      rw [if_pos rfl, htgtval]
  refine ⟨htgt, hne, ?_, ?_⟩ <;>
  · unfold GIT_ENSURE_CLONED_TOOL
    rw [if_neg hurl, hgit]
    dsimp only
    rw [htgt]
    dsimp only
    cases hex : w.targetExists with
    | true => simp [tool_response, jlookup]
    | false =>
      cases hexc : w.runExc with
      | some e => simp [tool_response, jlookup]
      | none =>
        by_cases hc : w.cloneCode ≠ 0
        · rw [if_pos hc]
          simp [tool_response, jlookup]
        · rw [if_neg hc]
          simp [tool_response, jlookup]

/-- C10 (witness). The redirect theorem applied at `dest="."` with a
normal repository url: the target is `/ws/demo`, not the root. -/
theorem c10_sentinel_dest_redirect_witness :
    gitTarget "/ws" "https://github.com/example/demo.git" (some ".")
      = Gres.ok "/ws/demo" ∧
    ("/ws/demo" : String) ≠ "/ws" ∧
    jlookup (GIT_ENSURE_CLONED_TOOL "/ws" "https://github.com/example/demo.git"
      (some ".") 1 true none c3gitWorld).1.data "existed" = some (jbool true) := by
  have h := c10_sentinel_dest_redirect "/ws" "https://github.com/example/demo.git"
    (some ".") 1 true none c3gitWorld (by refine ⟨rfl, ?_, ?_⟩ <;> decide)
    (by decide) rfl
    (Or.inr (Or.inl ⟨".", rfl, Or.inr (Or.inl rfl)⟩))
    (by decide) (by refine ⟨?_, ?_⟩ <;> decide)
  exact ⟨h.1, h.2.1, h.2.2.1⟩

/-- C3 (counterexample). The claim requires the returned data to contain
`project_root`, `project_name`, `existed` and `cloned` in every case,
success or failure. The early validation failure for an empty url returns
`{url: ""}` with `error="invalid_url"` — none of the four keys is present. -/
theorem c3_missing_keys_counterexample :
    (GIT_ENSURE_CLONED_TOOL "/ws" "" none 1 true none c3gitWorld).1.ok = false ∧
    (GIT_ENSURE_CLONED_TOOL "/ws" "" none 1 true none c3gitWorld).1.error
      = some "invalid_url" ∧
    jlookup (GIT_ENSURE_CLONED_TOOL "/ws" "" none 1 true none c3gitWorld).1.data
      "existed" = none ∧
    jlookup (GIT_ENSURE_CLONED_TOOL "/ws" "" none 1 true none c3gitWorld).1.data
      "cloned" = none ∧
    jlookup (GIT_ENSURE_CLONED_TOOL "/ws" "" none 1 true none c3gitWorld).1.data
      "project_root" = none ∧
    jlookup (GIT_ENSURE_CLONED_TOOL "/ws" "" none 1 true none c3gitWorld).1.data
      "project_name" = none := by
  exact ⟨rfl, rfl, rfl, rfl, rfl, rfl⟩

/-- C3 (amended). For every `git_ensure_cloned` call that passes the early
validation — nonempty url, git available, destination resolving inside the
workspace root (or redirected there) — the tool is idempotent as claimed:
an existing target yields `ok=true, existed=true, cloned=false` with no
clone attempted; a missing target triggers a clone attempt (shallow
`--depth` when `depth > 0`, the default being 1); and the returned data
contains `project_root`, `project_name`, `existed` and `cloned` in every
branch. The early validation failures (`invalid_url`, `git_not_available`,
out-of-root dest) return data without those keys. -/
theorem c3_ensure_cloned_contract (root url : String) (dest : Option String)
    (depth : Int) (sparse : Bool) (branch : Option String) (w : GitWorld)
    (tgt : String)
    (hurl : url ≠ "") (hgit : w.gitAvailable = true)
    (htgt : gitTarget root url dest = Gres.ok tgt) :
    (w.targetExists = true →
      (GIT_ENSURE_CLONED_TOOL root url dest depth sparse branch w).1.ok = true ∧
      jlookup (GIT_ENSURE_CLONED_TOOL root url dest depth sparse branch w).1.data
        "existed" = some (jbool true) ∧
      jlookup (GIT_ENSURE_CLONED_TOOL root url dest depth sparse branch w).1.data
        "cloned" = some (jbool false) ∧
      (GIT_ENSURE_CLONED_TOOL root url dest depth sparse branch w).2 = false) ∧
    (w.targetExists = false →
      (GIT_ENSURE_CLONED_TOOL root url dest depth sparse branch w).2 = true) ∧
    (jlookup (GIT_ENSURE_CLONED_TOOL root url dest depth sparse branch w).1.data
      "project_root" = some (jstr tgt)) ∧
    (jlookup (GIT_ENSURE_CLONED_TOOL root url dest depth sparse branch w).1.data
      "project_name" = some (jstr (repoNameFromUrl url))) ∧
    (jlookup (GIT_ENSURE_CLONED_TOOL root url dest depth sparse branch w).1.data
      "existed").isSome = true ∧
    (jlookup (GIT_ENSURE_CLONED_TOOL root url dest depth sparse branch w).1.data
      "cloned").isSome = true := by
  unfold GIT_ENSURE_CLONED_TOOL
  rw [if_neg hurl, hgit]
  dsimp only
  rw [htgt]
  dsimp only
  cases hex : w.targetExists with
  | true =>
    simp [tool_response, jlookup]
  | false =>
    cases hexc : w.runExc with
    | some e => simp [tool_response, jlookup]
    | none =>
      by_cases hc : w.cloneCode ≠ 0
      · rw [if_pos hc]
        simp [tool_response, jlookup]
      · rw [if_neg hc]
        simp [tool_response, jlookup]

/-- C3 (witness). The amended contract applied at a concrete call whose
target pre-exists: no clone, `existed=true`, `cloned=false`, all four keys
present. -/
theorem c3_ensure_cloned_contract_witness :
    (GIT_ENSURE_CLONED_TOOL "/ws" "https://github.com/example/demo.git" none 1
      true none c3gitWorld).1.ok = true ∧
    jlookup (GIT_ENSURE_CLONED_TOOL "/ws" "https://github.com/example/demo.git"
      none 1 true none c3gitWorld).1.data "existed" = some (jbool true) ∧
    jlookup (GIT_ENSURE_CLONED_TOOL "/ws" "https://github.com/example/demo.git"
      none 1 true none c3gitWorld).1.data "cloned" = some (jbool false) ∧
    (GIT_ENSURE_CLONED_TOOL "/ws" "https://github.com/example/demo.git" none 1
      true none c3gitWorld).2 = false ∧
    jlookup (GIT_ENSURE_CLONED_TOOL "/ws" "https://github.com/example/demo.git"
      none 1 true none c3gitWorld).1.data "project_root" = some (jstr "/ws/demo") := by
  have h := c3_ensure_cloned_contract "/ws" "https://github.com/example/demo.git"
    none 1 true none c3gitWorld "/ws/demo" (by decide) rfl (by rfl)
  have h1 := h.1 rfl
  exact ⟨h1.1, h1.2.1, h1.2.2.1, h1.2.2.2, h.2.2.1⟩

/-- The token returned by `run_single` is the acquired one. -/
theorem run_single_fst (st : ShellSessions) (tk : Option Nat) (w : RunWorld)
    (env : String) (t : Nat) :
    (run_single st tk w env t).1 = (acquireSession st tk).1 := by
  unfold run_single
  dsimp only
  split <;> rfl

/-- On timeout, `run_single` marks the acquired session dead. -/
theorem run_single_timeout_state (st : ShellSessions) (tk : Option Nat)
    (w : RunWorld) (env : String) (t : Nat) (hto : w.timesOut = true) :
    (run_single st tk w env t).2.2
      = markDead (acquireSession st tk).2 (acquireSession st tk).1 := by
  unfold run_single
  dsimp only
  rw [hto]
  rfl

/-- C5. A `run_instruction` whose command execution exceeds the requested
timeout returns `ok=false` with `data.exit_code=124`, `data.timed_out=true`
and `data.stdout = "Timed out after {timeout}s"`; the session is torn down
(its token reads back dead); and the next `run_single` call passing the old
session token returns a fresh token different from the old one. -/
theorem c5_timeout_behavior (st : ShellSessions) (tk : Option Nat)
    (nl : String) (w w2 : RunWorld) (env env2 : String) (t t2 : Nat)
    (hinv : SessInv st) (hto : w.timesOut = true) (hraise : w.raiseErr = none) :
    (RUN_INSTRUCTION_TOOL st nl t tk w env).1.ok = false ∧
    jlookup (RUN_INSTRUCTION_TOOL st nl t tk w env).1.data "exit_code"
      = some (jint 124) ∧
    jlookup (RUN_INSTRUCTION_TOOL st nl t tk w env).1.data "timed_out"
      = some (jbool true) ∧
    jlookup (RUN_INSTRUCTION_TOOL st nl t tk w env).1.data "stdout"
      = some (jstr ("Timed out after " ++ toString t ++ "s")) ∧
    lookupTok (run_single st tk w env t).2.2 (run_single st tk w env t).1
      = some false ∧
    (run_single (run_single st tk w env t).2.2 (some (run_single st tk w env t).1)
        w2 env2 t2).1
      ≠ (run_single st tk w env t).1 := by
  have hsrr : sessionRunResult w env t =
      [("exit_code", jint 124),
       ("stdout", jstr ("Timed out after " ++ toString t ++ "s")),
       ("stderr", jstr ""),
       ("command", jstr w.cmd),
       ("work_dir", jstr (if env ≠ "" then env else w.startDir)),
       ("start_dir", jstr w.startDir),
       ("end_dir", jstr w.startDir),
       ("timed_out", jbool true)] := by
    unfold sessionRunResult
    rw [hto]
    rfl
  have henv : (RUN_INSTRUCTION_TOOL st nl t tk w env).1 =
      tool_response "run_instruction" false
        (sessionRunResult w env t
          ++ [("session_token", jint (Int.ofNat (run_single st tk w env t).1))])
        none := by
    unfold RUN_INSTRUCTION_TOOL
    rw [hraise]
    dsimp only
    rw [run_single_result]
    rw [hsrr]
    rfl
  have hdead : lookupTok (run_single st tk w env t).2.2 (run_single st tk w env t).1
      = some false := by
    rw [run_single_timeout_state st tk w env t hto, run_single_fst]
    apply lookup_markDead
    rw [acquire_lookup]
    rfl
  refine ⟨?_, ?_, ?_, ?_, hdead, ?_⟩
  · rw [henv]
    rfl
  · rw [henv]
    show jlookup (sessionRunResult w env t ++ _) "exit_code" = some (jint 124)
    rw [hsrr]
    rfl
  · rw [henv]
    show jlookup (sessionRunResult w env t ++ _) "timed_out" = some (jbool true)
    rw [hsrr]
    rfl
  · rw [henv]
    show jlookup (sessionRunResult w env t ++ _) "stdout" = some _
    rw [hsrr]
    rfl
  · rw [run_single_rebuild _ _ _ _ _ hdead]
    rw [run_single_timeout_state st tk w env t hto, markDead_next, run_single_fst]
    have := acquire_lt st tk hinv
    omega

/-- The shell world of the C5 witness: a one-second timeout fires. -/
def c5world : RunWorld :=
  { cmd := "Start-Sleep -Seconds 5", startDir := "/ws", endDir := "/ws",
    timesOut := true, exitCode := 0, stdoutText := "", raiseErr := none }

/-- The follow-up shell world of the C5 witness. -/
def c5world2 : RunWorld :=
  { cmd := "Write-Output hi", startDir := "/ws", endDir := "/ws",
    timesOut := false, exitCode := 0, stdoutText := "hi", raiseErr := none }

/-- C5 (witness). The timeout theorem applied at a fresh session table and
a one-second timeout. -/
theorem c5_timeout_behavior_witness :
    (RUN_INSTRUCTION_TOOL sessions0 "sleep 5" 1 none c5world "/ws").1.ok = false ∧
    jlookup (RUN_INSTRUCTION_TOOL sessions0 "sleep 5" 1 none c5world "/ws").1.data
      "stdout" = some (jstr "Timed out after 1s") ∧
    (run_single (run_single sessions0 none c5world "/ws" 1).2.2
        (some (run_single sessions0 none c5world "/ws" 1).1) c5world2 "/ws" 60).1
      ≠ (run_single sessions0 none c5world "/ws" 1).1 := by
  have h := c5_timeout_behavior sessions0 none "sleep 5" c5world c5world2
    "/ws" "/ws" 1 60 (by intro p hp; simp [sessions0] at hp) rfl rfl
  exact ⟨h.1, h.2.2.2.1, h.2.2.2.2.2⟩

/-- C7 (counterexample). The claim expects the degraded plan's single step
to be `{id:1, title:"execute goal", instruction: goal}`. The code's fallback
step is `{"id": 1, "title": "执行任务", "instruction": goal}` — the title is
the literal `"执行任务"`, not `"execute goal"`; and under an incremental
re-plan with a nonempty completed prefix the merge renumbers the step to
`id = len(completed)+1`, not 1. -/
theorem c7_fallback_counterexample :
    plan_with_llm "install deps" [] none
      = Except.ok [(⟨1, "执行任务", "install deps"⟩ : TaskStep)] ∧
    "执行任务" ≠ "execute goal" ∧
    plan_with_llm "install deps" [(⟨1, "克隆仓库", "克隆仓库"⟩ : TaskStep)] none
      = Except.ok [(⟨1, "克隆仓库", "克隆仓库"⟩ : TaskStep),
          ⟨2, "执行任务", "install deps"⟩] := by
  refine ⟨rfl, by decide, rfl⟩

/-- C7 (amended). Whenever the LLM response yields no steps — parsing failed
(`data = none`), the parse produced no dict, `steps` is missing, not a list,
or every entry is skipped — `plan_with_llm` degrades so that the newly
generated steps (those after the preserved completed prefix) are exactly the
single step `{id: len(completed)+1, title: "执行任务", instruction: goal}`,
and the episode written back by `plan_node` is unchanged. -/
theorem c7_plan_fallback (goal : String) (completed : List TaskStep)
    (data : Option Jval) (ep : Int)
    (hempty : extractSteps data = Except.ok [])
    (hep : ep ≠ 0) :
    plan_with_llm goal completed data
      = Except.ok (completed ++
          [(⟨Int.ofNat completed.length + 1, "执行任务", goal⟩ : TaskStep)]) ∧
    planNodeEpisode ep = ep := by
  constructor
  · unfold plan_with_llm
    rw [hempty]
    simp [bind, Except.bind, List.enum, List.enumFrom]
  · unfold planNodeEpisode
    simp [hep]

/-- C7 (witness). The fallback theorem applied at a concrete garbled
response (`data = none`, the outcome of `"{ not json"`). -/
theorem c7_plan_fallback_witness :
    plan_with_llm "install dependencies" [] none
      = Except.ok [(⟨1, "执行任务", "install dependencies"⟩ : TaskStep)] ∧
    planNodeEpisode 1 = 1 := by
  have h := c7_plan_fallback "install dependencies" [] none 1 rfl (by decide)
  simpa using h

/-- The single-step task of the C9 run. -/
def c9step : TaskStep :=
  { id := 1, title := "检查 pyproject.toml", instruction := "检查 pyproject.toml 是否存在" }

/-- Observer state of the C9 run: first step, nothing finished. -/
def c9state : ObsState :=
  { mode := "discover", episode := 1, lastReplanEpisode := 0,
    currentStepIndex := 0, finishedTitles := [], repeatCounts := [],
    sessionId := none, lastResult := none, isComplete := false,
    failed := false, replanRequested := false, route := none }

/-- The observer's decision in the C9 run: plain `decide` route, no
explicit success signal, so the tool envelope's `ok` decides advancement. -/
def c9dec : RouteDecision :=
  { route := some "decide", suggestedMode := none, success := none }

/-- The successful `files_exists` envelope observed in the C9 run, exactly
as `extract_last_tool_result` parses it: the unified envelope carries `ok`
at top level and no top-level `exit_code`. -/
def c9tool : List (String × Jval) :=
  [("ok", jbool true), ("tool", jstr "files_exists"),
   ("data", jobj [("exists", jbool true), ("path", jstr "/ws/pyproject.toml")])]

/-- C9. The claim states that a step title enters `finished_titles` iff an
executing tool call under the step returned `ok=true` and the observer
routed forward. The code instead tests `tool_result.get("exit_code", -1) == 0`
on the parsed envelope — but unified envelopes carry `exit_code` only inside
`data` (if at all), so the top-level read yields the default `-1` and the
title is never appended: here the tool returned `ok=true`, the observer
routed forward (the index advances to 1), and `finished_titles` stays empty. -/
theorem c9_finished_titles_never_appended :
    jlookup c9tool "ok" = some (jbool true) ∧
    jlookup c9tool "exit_code" = none ∧
    (observe_node [c9step] c9state c9dec (some c9tool)).currentStepIndex = 1 ∧
    (observe_node [c9step] c9state c9dec (some c9tool)).finishedTitles = [] := by
  refine ⟨rfl, rfl, by decide, by decide⟩

/-- C2 (witness). The amended invariant applied at a concrete failing call:
`files_read` on an escaping path has an error member, and the invariant
forces `ok=false` there. -/
theorem c2_envelope_invariant_witness :
    (runTool (ToolInv.filesRead "/ws" "../../etc/passwd" "raw" 262144
      sampleFsWorld)).error.isSome = true ∧
    (runTool (ToolInv.filesRead "/ws" "../../etc/passwd" "raw" 262144
      sampleFsWorld)).ok = false := by
  refine ⟨by decide, ?_⟩
  exact (c2_envelope_invariant (ToolInv.filesRead "/ws" "../../etc/passwd"
    "raw" 262144 sampleFsWorld)).2.1 (by decide)

end SetupAgent
